import Mathlib

/-!
Verification development for the BNSimulator battle engine.

The Python sources are shallowly embedded: Python `int` is `ℤ`, Python
`float` is `ℚ` (exact arithmetic), Python `int(x)` conversion is `pyInt`
(truncation toward zero), dictionaries are association lists threaded in
insertion order, and mutation is explicit state passing.  `random.Random`
is modelled as a deterministic generator (`Rng`): the claims under study
depend only on how draws are threaded, never on the distribution of the
Mersenne twister itself.  A Python function that can raise an uncaught
exception is embedded with an `Option` result, `none` meaning the raise.
Fields of the source dataclasses that no embedded operation reads are
omitted from the corresponding structures.
-/

namespace BNSim

/-- Python `int(x)` applied to a rational: truncation toward zero. -/
def pyInt (q : ℚ) : ℤ := if 0 ≤ q then ⌊q⌋ else ⌈q⌉

/-- Python list indexing `l[i]` with an `int` index: non-negative indices
count from the front, negative indices from the back, and an index outside
`[-len l, len l)` raises `IndexError` (embedded as `none`). -/
def pyGet (l : List α) (i : ℤ) : Option α :=
  if 0 ≤ i then l.get? i.toNat
  else if -(l.length : ℤ) ≤ i then l.get? ((l.length : ℤ) + i).toNat
  else none

/-- Resolve a Python list index to a position from the front (the slot that
`pyGet` reads), for indices that do not raise. -/
def pyIdx (len : ℕ) (i : ℤ) : ℕ :=
  if 0 ≤ i then i.toNat else ((len : ℤ) + i).toNat

/-- Python `dict.get(k)` on a dict kept as an insertion-ordered assoc list. -/
def dictGet [DecidableEq α] (l : List (α × β)) (k : α) : Option β :=
  (l.find? (fun p => decide (p.1 = k))).map (·.2)

/-- Python `dict.get(k, d)`. -/
def dictGetD [DecidableEq α] (l : List (α × β)) (k : α) (d : β) : β :=
  (dictGet l k).getD d

/-- Python `dict[k] = v`: overwrite in place, or append a fresh key. -/
def dictSet [DecidableEq α] : List (α × β) → α → β → List (α × β)
  | [], k, v => [(k, v)]
  | (a, b) :: t, k, v => if a = k then (k, v) :: t else (a, b) :: dictSet t k v

/-- Deterministic core of the pseudo-random generator model: one
state-transition step (a 64-bit linear congruence standing in for the
Mersenne twister, whose exact stream no claim depends on). -/
def rngNext (s : ℕ) : ℕ := (6364136223846793005 * s + 1442695040888963407) % (2 ^ 64)

/-- Model of `random.Random`: the generator owned by a battle instance. -/
structure Rng where
  state : ℕ
  deriving DecidableEq

/-- Model of `Random.random()`: a rational draw in `[0, 1)` plus the advanced
generator. -/
def Rng.randomQ (r : Rng) : ℚ × Rng :=
  (((rngNext r.state % 2 ^ 53 : ℕ) : ℚ) / (2 ^ 53 : ℚ), ⟨rngNext r.state⟩)

/-- Model of `Random.randint(a, b)`: raises `ValueError` (`none`) when
`a > b`, otherwise a draw in `[a, b]` plus the advanced generator. -/
def Rng.randint (a b : ℤ) (r : Rng) : Option (ℤ × Rng) :=
  if a ≤ b then some (a + ((rngNext r.state % (b - a + 1).toNat : ℕ) : ℤ), ⟨rngNext r.state⟩)
  else none

/-- Model of `Random.seed(v)`: the generator state becomes a function of the
seed value alone. -/
def Rng.seedInit (v : ℤ) : Rng := ⟨v.natAbs⟩

/-! Enumerations (src/simulator/enums.py).  Enum members are embedded as
their runtime integer values.  `DamageType` there defines NONE=0 PIERCING=1
COLD=2 CRUSHING=3 EXPLOSIVE=4 FIRE=5 TORPEDO=6 DEPTH_CHARGE=7 MELEE=8
PROJECTILE=9 SHELL=10; `LineOfFire` defines NONE=0 DIRECT=1 INDIRECT=2
ANY=3; `StatusEffectType` DOT=1 STUN=2; `UnitBlocking` NONE=0 PARTIAL=1
FULL=2 GOD=3; `BattleSide` PLAYER_TEAM=1 ENEMY_TEAM=2; `TargetType` SELF=0
ALL_ENEMIES=1 SINGLE=2 ROW=3 COLUMN=4; `AttackDirection` ANY=0 FORWARD=1
BACKWARD=2; `TARGETABLE_ALL` = 51. -/

def LineOfFire.DIRECT : ℕ := 1
def LineOfFire.INDIRECT : ℕ := 2
def StatusEffectType.DOT : ℕ := 1
def StatusEffectType.STUN : ℕ := 2
def UnitBlocking.PARTIAL : ℕ := 1
def UnitBlocking.FULL : ℕ := 2
def BattleSide.PLAYER_TEAM : ℕ := 1
def BattleSide.ENEMY_TEAM : ℕ := 2
def TargetType.ALL_ENEMIES : ℕ := 1
def TargetType.SINGLE : ℕ := 2
def AttackDirection.ANY : ℕ := 0
def AttackDirection.FORWARD : ℕ := 1
def AttackDirection.BACKWARD : ℕ := 2
def TARGETABLE_ALL : ℕ := 51

/-- The TypeScript-parity `LineOfFire` values that the repository's own tests
(`tests/test_blocking_system.py`, `scripts/test_phase3_integration.py`)
assert: CONTACT=0, DIRECT=1, PRECISE=2, INDIRECT=3.  The enum actually
defined in src/simulator/enums.py does not contain CONTACT or PRECISE. -/
def LineOfFireTS.CONTACT : ℕ := 0
def LineOfFireTS.DIRECT : ℕ := 1
def LineOfFireTS.PRECISE : ℕ := 2
def LineOfFireTS.INDIRECT : ℕ := 3

/-- Grid position (src/simulator/models.py `Position`): x = column, y = row. -/
structure Position where
  x : ℤ
  y : ℤ
  deriving DecidableEq

/-- One entry of an AOE pattern (src/simulator/models.py `DamageArea`).
The dataclass has no `weight` attribute, so `getattr(entry, 'weight', 100)`
in the weighted-random draw always yields 100. -/
structure DamageArea where
  pos : Position
  damage_percent : ℚ
  order : ℤ
  deriving DecidableEq

/-- Targeting pattern (src/simulator/models.py `TargetArea`). -/
structure TargetArea where
  target_type : ℕ
  data : List DamageArea
  random : Bool
  deriving DecidableEq

/-- Ability statistics (src/simulator/models.py `AbilityStats`), restricted
to the fields the embedded operations read. -/
structure AbilityStats where
  ability_cooldown : ℤ
  global_cooldown : ℤ
  attack : ℤ
  damage : ℤ
  damage_type : ℕ
  armor_piercing_percent : ℚ
  attack_from_unit : ℚ
  attack_from_weapon : ℚ
  critical_hit_percent : ℚ
  critical_bonuses : List (ℕ × ℚ)
  min_range : ℤ
  max_range : ℤ
  line_of_fire : ℕ
  attack_direction : ℕ
  damage_area : List DamageArea
  target_area : Option TargetArea
  targets : List ℕ
  status_effects : List (ℕ × ℚ)
  deriving DecidableEq

/-- An ability (src/simulator/models.py `Ability`). -/
structure Ability where
  id : ℕ
  stats : AbilityStats
  deriving DecidableEq

/-- Weapon statistics (src/simulator/models.py `WeaponStats`). -/
structure WeaponStats where
  ammo : ℤ
  base_atk : ℤ
  base_damage_min : ℤ
  base_damage_max : ℤ
  base_crit_percent : ℚ
  deriving DecidableEq

/-- A weapon (src/simulator/models.py `Weapon`). -/
structure Weapon where
  id : ℕ
  abilities : List ℕ
  stats : WeaponStats
  deriving DecidableEq

/-- Unit statistics (src/simulator/models.py `UnitStats`), restricted to the
fields the embedded operations read.  The per-damage-type modifier maps are
keyed by type-name strings exactly as in the source. -/
structure UnitStats where
  hp : ℤ
  defense : ℤ
  accuracy : ℤ
  dodge : ℤ
  critical : ℚ
  power : ℤ
  blocking : ℕ
  armor_hp : ℤ
  armor_def_style : ℤ
  damage_mods : List (String × ℚ)
  armor_damage_mods : List (String × ℚ)
  status_effect_immunities : List ℕ
  deriving DecidableEq

/-- Unit template (src/simulator/models.py `UnitTemplate`), restricted to the
fields the embedded operations read; `class_type` is the enum's integer. -/
structure UnitTemplate where
  id : ℕ
  class_type : ℕ
  tags : List ℕ
  stats : UnitStats
  weapons : List (ℕ × Weapon)
  unimportant : Bool
  deriving DecidableEq

/-- Status-effect template (src/simulator/models.py `StatusEffect`),
restricted to the fields the embedded operations read. -/
structure StatusEffectDef where
  id : ℕ
  effect_type : ℕ
  family : ℕ
  duration : ℤ
  dot_damage_type : ℕ
  dot_ability_damage_mult : ℚ
  dot_bonus_damage : ℤ
  dot_ap_percent : ℚ
  dot_diminishing : Bool
  stun_block_action : Bool
  stun_damage_mods : List (ℕ × ℚ)
  stun_armor_damage_mods : List (ℕ × ℚ)
  deriving DecidableEq

/-- An active effect on a unit (src/simulator/battle.py `ActiveStatusEffect`). -/
structure ActiveStatusEffect where
  effect : StatusEffectDef
  remaining_turns : ℤ
  source_damage : ℚ
  deriving DecidableEq

/-- A unit instance in battle (src/simulator/battle.py `BattleUnit`),
restricted to the fields the embedded operations read. -/
structure BattleUnit where
  template : UnitTemplate
  position : Position
  battle_side : ℕ
  current_hp : ℤ
  current_armor : ℤ
  is_alive : Bool
  weapon_cooldowns : List (ℕ × ℤ)
  global_cooldown : ℤ
  ammo : List (ℕ × ℤ)
  status_effects : List ActiveStatusEffect
  deriving DecidableEq

/-- A battle action (src/simulator/battle.py `Action`).  The unit index is a
Python `int` and may be negative. -/
structure BattleAction where
  unit_index : ℤ
  weapon_id : ℕ
  target_position : Position
  deriving DecidableEq

/-- Result of executing an action (src/simulator/battle.py `ActionResult`). -/
structure ActionResult where
  success : Bool
  damage_dealt : List (ℕ × ℤ)
  kills : List ℕ
  status_applied : List (ℕ × ℕ)
  message : String
  deriving DecidableEq

/-- `ActionResult(success=False, message=msg)`: the failure value built by
`execute_action`, every other field at its dataclass default. -/
def ActionResult.failure (msg : String) : ActionResult :=
  ⟨false, [], [], [], msg⟩

/-- The static content store (src/simulator/data_loader.py `GameDataLoader`),
restricted to the lookups the embedded operations perform. -/
structure GameDataLoader where
  abilities : List (ℕ × Ability)
  status_effects : List (ℕ × StatusEffectDef)
  tag_hierarchy : List (ℕ × List ℕ)
  class_damage_mods : List (ℕ × List (ℕ × ℚ))
  deriving DecidableEq

/-- `GameDataLoader.get_ability`. -/
def GameDataLoader.get_ability (d : GameDataLoader) (i : ℕ) : Option Ability :=
  dictGet d.abilities i

/-- `GameDataLoader.get_class_damage_mod` (src/simulator/data_loader.py):
`config.class_damage_mods.get(ac, {}).get(dc, 1.0)`. -/
def GameDataLoader.get_class_damage_mod (d : GameDataLoader) (ac dc : ℕ) : ℚ :=
  dictGetD (dictGetD d.class_damage_mods ac []) dc 1

/-- Battle grid layout, restricted to the dimensions (no embedded operation
reads the validity masks). -/
structure GridLayout where
  width : ℕ
  height : ℕ
  deriving DecidableEq

/-- `BattleResult` (src/simulator/battle.py): IN_PROGRESS=0, PLAYER_WIN=1,
ENEMY_WIN=2, SURRENDER=3, embedded as the enum's integer values. -/
def BattleResult.IN_PROGRESS : ℕ := 0
def BattleResult.PLAYER_WIN : ℕ := 1
def BattleResult.ENEMY_WIN : ℕ := 2

/-- Complete battle state (src/simulator/battle.py `BattleState`). -/
structure BattleState where
  data_loader : GameDataLoader
  layout : GridLayout
  player_units : List BattleUnit
  enemy_units : List BattleUnit
  player_is_attacker : Bool
  turn_number : ℤ
  is_player_turn : Bool
  result : ℕ
  action_history : List (BattleAction × ActionResult)
  rng : Rng
  deriving DecidableEq

/-! Damage-type name strings used as keys of the per-type modifier maps. -/

def dt_piercing : String := "piercing"
def dt_crushing : String := "crushing"
def dt_explosive : String := "explosive"
def dt_fire : String := "fire"
def dt_cold : String := "cold"

namespace Combat

/-- `DamageCalculator.calculate_damage_at_rank`:
`int(base_damage * (1 + 2 * 0.01 * power))`. -/
def calculate_damage_at_rank (base_damage power : ℤ) : ℤ :=
  pyInt ((base_damage : ℚ) * (1 + 2 * (1 / 100) * (power : ℚ)))

/-- `DamageCalculator.calculate_dodge_chance`: `max(0, defense - offense + 5)`
(no upper cap here; the 95 cap is applied by the caller). -/
def calculate_dodge_chance (defender_defense attacker_offense : ℤ) : ℚ :=
  max 0 ((defender_defense : ℚ) - (attacker_offense : ℚ) + 5)

/-- Tag-conditional critical bonus accumulation inside
`DamageCalculator.calculate_damage`: add each bonus whose tag the defender
carries. -/
def critical_bonus_total (bonuses : List (ℕ × ℚ)) (defender_tags : List ℕ) : ℚ :=
  bonuses.foldl (fun acc p => if p.1 ∈ defender_tags then acc + p.2 else acc) 0

/-- `DamageCalculator.calculate_damage` (src/simulator/combat.py, lines
484-557).  Returns `((damage, is_critical, was_dodged), rng)`; `none` is the
`ValueError` that `randint` raises when the scaled minimum exceeds the
scaled maximum. -/
def calculate_damage (class_damage_mods : List (ℕ × List (ℕ × ℚ)))
    (attacker defender : BattleUnit) (weapon : Weapon) (ability : Ability)
    (damage_percent : ℚ) (rng : Rng) : Option ((ℤ × Bool × Bool) × Rng) := do
  let stats := ability.stats
  let weapon_stats := weapon.stats
  let offense := stats.attack + attacker.template.stats.accuracy
  let defense := defender.template.stats.defense
  let dodge_chance := min (95 : ℚ) (calculate_dodge_chance defense offense)
  let (r1, rng1) := rng.randomQ
  if r1 * 100 < dodge_chance then
    return ((0, false, true), rng1)
  let power := attacker.template.stats.power
  let (base_damage, rng2) ←
    if weapon_stats.base_damage_max > weapon_stats.base_damage_min then
      rng1.randint (calculate_damage_at_rank weapon_stats.base_damage_min power)
        (calculate_damage_at_rank weapon_stats.base_damage_max power)
    else
      some (calculate_damage_at_rank weapon_stats.base_damage_min power, rng1)
  let damage := base_damage + stats.damage
  let crit_chance := attacker.template.stats.critical + weapon_stats.base_crit_percent +
    stats.critical_hit_percent +
    critical_bonus_total stats.critical_bonuses defender.template.tags
  let (r2, rng3) := rng2.randomQ
  let is_critical : Bool := decide (r2 * 100 < crit_chance)
  let damage := if is_critical then pyInt ((damage : ℚ) * (3 / 2)) else damage
  let class_mod := dictGetD (dictGetD class_damage_mods attacker.template.class_type [])
    defender.template.class_type 1
  let damage := pyInt ((damage : ℚ) * class_mod)
  let damage := pyInt ((damage : ℚ) * damage_percent / 100)
  let damage := max 1 damage
  return ((damage, is_critical, false), rng3)

/-- The damage-type-name table of `DamageCalculator.apply_damage`, restricted
to the keys that name existing `DamageType` members (the dict literal in the
source also lists `DamageType.SLASHING` and `DamageType.ELECTRIC`, which the
enum in src/simulator/enums.py does not define); `.get` default is
"piercing". -/
def applyDamageTypeName (dt : ℕ) : String :=
  if dt = 1 then dt_piercing
  else if dt = 3 then dt_crushing
  else if dt = 4 then dt_explosive
  else if dt = 5 then dt_fire
  else if dt = 2 then dt_cold
  else dt_piercing

/-- Shared tail of every `apply_damage` branch: subtract HP damage, then
clamp at zero and drop the liveness flag when the result is ≤ 0. -/
def applyHpLoss (u : BattleUnit) (hp_damage : ℤ) : BattleUnit :=
  let hp := u.current_hp - hp_damage
  if hp ≤ 0 then { u with current_hp := 0, is_alive := false }
  else { u with current_hp := hp }

/-- `DamageCalculator.apply_damage` (src/simulator/combat.py, lines 559-681)
as executed at runtime: for a dead target it returns 0 without touching the
unit; for a living target, evaluating the damage-type-name dict literal
raises `AttributeError` because `DamageType.SLASHING` (and `ELECTRIC`) do
not exist in the enum of src/simulator/enums.py — embedded as `none`.  The
statements before the dict (modifier products) mutate nothing. -/
def applyDamagePy (target : BattleUnit) (damage : ℤ) (damage_type : ℕ)
    (armor_piercing : ℚ)
    (environmental_damage_mods status_effect_damage_mods
      status_effect_armor_mods : Option (List (ℕ × ℚ)))
    (bypass_armor_due_to_stun : Bool) : Option (BattleUnit × ℤ) :=
  if target.is_alive = false then some (target, 0)
  else none

/-- The function the body of `DamageCalculator.apply_damage` denotes once the
two dict keys naming nonexistent enum members are dropped (they can match no
runtime damage-type value anyway): environmental/status modifiers first,
then the armor-piercing split, the effective-armor-capacity absorption, and
HP damage with the HP modifier.  Returns the mutated unit and the value
`armor_damage_taken + hp_damage_final` that the source returns. -/
def applyDamageBody (target : BattleUnit) (damage : ℤ) (damage_type : ℕ)
    (armor_piercing : ℚ)
    (environmental_damage_mods status_effect_damage_mods
      status_effect_armor_mods : Option (List (ℕ × ℚ)))
    (bypass_armor_due_to_stun : Bool) : BattleUnit × ℤ :=
  if target.is_alive = false then (target, 0) else
  let env_mod := match environmental_damage_mods with
    | some m => dictGetD m damage_type 1
    | none => 1
  let status_mod := match status_effect_damage_mods with
    | some m => dictGetD m damage_type 1
    | none => 1
  let combined_mod := env_mod * status_mod
  let modified_damage := pyInt ((damage : ℚ) * combined_mod)
  let dtype_name := applyDamageTypeName damage_type
  let hp_mod := dictGetD target.template.stats.damage_mods dtype_name 1
  let armor_mod := dictGetD target.template.stats.armor_damage_mods dtype_name 1
  if bypass_armor_due_to_stun ∧ target.current_armor > 0 then
    let hp_damage := pyInt ((modified_damage : ℚ) * hp_mod)
    (applyHpLoss target hp_damage, hp_damage)
  else if target.current_armor ≤ 0 then
    let hp_damage := pyInt ((modified_damage : ℚ) * hp_mod)
    (applyHpLoss target hp_damage, hp_damage)
  else
    let piercing_damage := pyInt ((modified_damage : ℚ) * armor_piercing)
    let armorable_damage := modified_damage - piercing_damage
    let armor_mod := match status_effect_armor_mods with
      | some m => armor_mod * dictGetD m damage_type 1
      | none => armor_mod
    let effective_armor_capacity :=
      if armor_mod > 0 then pyInt ((target.current_armor : ℚ) / armor_mod)
      else target.current_armor
    if armorable_damage ≤ effective_armor_capacity then
      let armor_damage_taken := pyInt ((armorable_damage : ℚ) * armor_mod)
      let target := { target with current_armor := target.current_armor - armor_damage_taken }
      let hp_damage_final := pyInt ((piercing_damage : ℚ) * hp_mod)
      (applyHpLoss target hp_damage_final, armor_damage_taken + hp_damage_final)
    else
      let armor_damage_taken := target.current_armor
      let target := { target with current_armor := 0 }
      let overflow_damage := armorable_damage - effective_armor_capacity
      let hp_damage_final := pyInt (((piercing_damage + overflow_damage : ℤ) : ℚ) * hp_mod)
      (applyHpLoss target hp_damage_final, armor_damage_taken + hp_damage_final)

/-- Loop body of `StatusEffectSystem.process_effects` over the active-effect
list, with the faithful `applyDamagePy` for each DOT tick (so a positive
tick on a living unit is the `AttributeError`, i.e. `none`). -/
def processEffectsPyGo (u : BattleUnit) :
    List ActiveStatusEffect → Option (BattleUnit × ℤ × List ActiveStatusEffect)
  | [] => some (u, 0, [])
  | s :: rest => do
    let (u1, dealt) ←
      if s.effect.effect_type = StatusEffectType.DOT then
        let dot_damage := pyInt (s.source_damage * s.effect.dot_ability_damage_mult) +
          s.effect.dot_bonus_damage
        if dot_damage > 0 then
          applyDamagePy u dot_damage s.effect.dot_damage_type s.effect.dot_ap_percent
            none none none false
        else some (u, 0)
      else some (u, 0)
    let s' := { s with remaining_turns := s.remaining_turns - 1 }
    let (u2, total, rem) ← processEffectsPyGo u1 rest
    some (u2, dealt + total, if s'.remaining_turns > 0 then s' :: rem else rem)

/-- `StatusEffectSystem.process_effects` (src/simulator/combat.py, lines
739-772) as executed at runtime. -/
def processEffectsPy (u : BattleUnit) : Option (BattleUnit × ℤ) :=
  if u.is_alive = false then some (u, 0)
  else do
    let (u', total, rem) ← processEffectsPyGo u u.status_effects
    some ({ u' with status_effects := rem }, total)

/-- Loop body of `StatusEffectSystem.process_effects` with the intended
`applyDamageBody` for each DOT tick.  Note that no decay of any kind is
applied: `dot_damage` is recomputed from the unchanged captured
`source_damage` on every tick, whether or not the template is diminishing. -/
def processEffectsBodyGo (u : BattleUnit) :
    List ActiveStatusEffect → BattleUnit × ℤ × List ActiveStatusEffect
  | [] => (u, 0, [])
  | s :: rest =>
    let step :=
      if s.effect.effect_type = StatusEffectType.DOT then
        let dot_damage := pyInt (s.source_damage * s.effect.dot_ability_damage_mult) +
          s.effect.dot_bonus_damage
        if dot_damage > 0 then
          applyDamageBody u dot_damage s.effect.dot_damage_type s.effect.dot_ap_percent
            none none none false
        else (u, 0)
      else (u, 0)
    let s' := { s with remaining_turns := s.remaining_turns - 1 }
    let next := processEffectsBodyGo step.1 rest
    (next.1, step.2 + next.2.1, if s'.remaining_turns > 0 then s' :: next.2.2 else next.2.2)

/-- `StatusEffectSystem.process_effects` with the intended `applyDamageBody`
for the ticks. -/
def processEffectsBody (u : BattleUnit) : BattleUnit × ℤ :=
  if u.is_alive = false then (u, 0)
  else
    let r := processEffectsBodyGo u u.status_effects
    ({ r.1 with status_effects := r.2.2 }, r.2.1)

/-- `TargetingSystem.check_line_of_fire` (src/simulator/combat.py, lines
151-228) as executed at runtime: `LineOfFire.INDIRECT` is 2 in
src/simulator/enums.py, and for every other line-of-fire value the next
comparison evaluates `LineOfFire.CONTACT`, a member the enum does not
define, raising `AttributeError` (`none`) before any blocking logic runs.
Only the blocked/not-blocked component of the returned dict is modelled. -/
def checkLineOfFirePy (line_of_fire : ℕ) (target_pos : Position)
    (target_units : List BattleUnit) : Option Bool :=
  if line_of_fire = LineOfFire.INDIRECT then some false
  else none

/-- The body of `TargetingSystem.check_line_of_fire` under the
TypeScript-parity `LineOfFire` values that the repository's tests assert
(CONTACT=0, DIRECT=1, PRECISE=2, INDIRECT=3): filter the living units of the
target's side standing in the target's column strictly in front of it, sort
front-to-back, and report blocked at the first unit whose blocking level
reaches the line-of-fire's threshold. -/
def checkLineOfFireTS (line_of_fire : ℕ) (target_pos : Position)
    (target_units : List BattleUnit) : Bool :=
  if line_of_fire = LineOfFireTS.INDIRECT then false
  else if line_of_fire = LineOfFireTS.CONTACT then false
  else
    let units_in_column := target_units.filter (fun u =>
      u.is_alive && !(decide (u.position = target_pos)) &&
      decide (u.position.x = target_pos.x) && decide (u.position.y < target_pos.y))
    let sorted := units_in_column.insertionSort (fun a b => a.position.y ≤ b.position.y)
    sorted.any (fun blocking_unit =>
      if line_of_fire = LineOfFireTS.DIRECT then
        decide (UnitBlocking.PARTIAL ≤ blocking_unit.template.stats.blocking)
      else if line_of_fire = LineOfFireTS.PRECISE then
        decide (UnitBlocking.FULL ≤ blocking_unit.template.stats.blocking)
      else false)

/-- Cumulative-weight walk of the weighted-random branch of
`resolve_target_area`: return the first entry whose running weight total
reaches the roll. -/
def weightedPick : List (DamageArea × ℚ) → ℚ → ℚ → Option DamageArea
  | [], _, _ => none
  | (e, w) :: rest, roll, cumulative =>
    let c := cumulative + w
    if roll ≤ c then some e else weightedPick rest roll c

/-- `TargetingSystem.resolve_target_area` (src/simulator/combat.py, lines
230-292): ALL_ENEMIES and the ROW/COLUMN fallthrough map every pattern entry
over the aim point; SINGLE draws one weighted entry when marked random and
otherwise returns just the aim point at 100%.  Every `DamageArea` lacks a
`weight` attribute, so each weight is the `getattr` default 100. -/
def resolveTargetArea (ability : Ability) (primary_target : Position) (rng : Rng) :
    (List (Position × ℚ)) × Rng :=
  let stats := ability.stats
  match stats.target_area with
  | none => ([(primary_target, 100)], rng)
  | some target_area =>
    if target_area.target_type = TargetType.ALL_ENEMIES then
      (target_area.data.map (fun e =>
        (⟨primary_target.x + e.pos.x, primary_target.y + e.pos.y⟩, e.damage_percent)), rng)
    else if target_area.target_type = TargetType.SINGLE then
      if target_area.random && !target_area.data.isEmpty then
        let weights := target_area.data.map (fun _ => (100 : ℚ))
        let total_weight := weights.foldl (· + ·) 0
        if total_weight > 0 then
          let (r, rng') := rng.randomQ
          let roll := r * total_weight
          match weightedPick (target_area.data.zip weights) roll 0 with
          | some e =>
            ([(⟨primary_target.x + e.pos.x, primary_target.y + e.pos.y⟩, e.damage_percent)], rng')
          | none => ([(primary_target, 100)], rng')
        else ([(primary_target, 100)], rng)
      else ([(primary_target, 100)], rng)
    else
      (target_area.data.map (fun e =>
        (⟨primary_target.x + e.pos.x, primary_target.y + e.pos.y⟩, e.damage_percent)), rng)

/-- `TargetingSystem.is_fixed_attack` (src/simulator/combat.py, lines
320-339): a SINGLE or ALL_ENEMIES target pattern with some non-zero offset. -/
def is_fixed_attack (ability : Ability) : Bool :=
  match ability.stats.target_area with
  | none => false
  | some target_area =>
    if target_area.target_type = TargetType.SINGLE ∨
        target_area.target_type = TargetType.ALL_ENEMIES then
      target_area.data.any (fun e => !(decide (e.pos.x = 0)) || !(decide (e.pos.y = 0)))
    else false

/-- In-place refresh of the first active instance whose effect id matches
(`existing.effect.id == effect_id` in `try_apply_effect`): remaining turns
reset to the template's duration, captured source damage to the max of old
and new.  `none` when no instance matches. -/
def refreshFirst : List ActiveStatusEffect → StatusEffectDef → ℕ → ℚ →
    Option (List ActiveStatusEffect)
  | [], _, _, _ => none
  | s :: rest, eff, eid, src =>
    if s.effect.id = eid then
      some ({ s with remaining_turns := eff.duration,
                     source_damage := max s.source_damage src } :: rest)
    else (refreshFirst rest eff eid src).map (s :: ·)

/-- `StatusEffectSystem.try_apply_effect` (src/simulator/combat.py, lines
696-737): immunity check, template lookup, chance roll, then refresh-by-id
or append. -/
def tryApplyEffect (effects : List (ℕ × StatusEffectDef)) (target : BattleUnit)
    (effect_id : ℕ) (apply_chance : ℚ) (source_damage : ℚ) (rng : Rng) :
    Bool × BattleUnit × Rng :=
  if effect_id ∈ target.template.stats.status_effect_immunities then (false, target, rng)
  else match dictGet effects effect_id with
  | none => (false, target, rng)
  | some effect =>
    let (r, rng') := rng.randomQ
    if r * 100 ≥ apply_chance then (false, target, rng')
    else match refreshFirst target.status_effects effect effect_id source_damage with
    | some l => (true, { target with status_effects := l }, rng')
    | none =>
      (true, { target with status_effects :=
        target.status_effects ++ [⟨effect, effect.duration, source_damage⟩] }, rng')

end Combat

namespace Battle

/-- The damage-type-name table of `BattleUnit.take_damage`
(src/simulator/battle.py): PIERCING, CRUSHING, EXPLOSIVE, FIRE, COLD, with
`.get` default "piercing". -/
def takeDamageTypeName (dt : ℕ) : String :=
  if dt = 1 then dt_piercing
  else if dt = 3 then dt_crushing
  else if dt = 4 then dt_explosive
  else if dt = 5 then dt_fire
  else if dt = 2 then dt_cold
  else dt_piercing

/-- The status-effect damage-modifier pass of `take_damage`: the highest
`stun_damage_mods` entry for this damage type over all active STUN-type
effects, starting from 1.0. -/
def stunDamageModMax (effects : List ActiveStatusEffect) (dt : ℕ) : ℚ :=
  effects.foldl (fun acc s =>
    if s.effect.effect_type = StatusEffectType.STUN then
      match dictGet s.effect.stun_damage_mods dt with
      | some m => max acc m
      | none => acc
    else acc) 1

/-- Same for `stun_armor_damage_mods`. -/
def stunArmorDamageModMax (effects : List ActiveStatusEffect) (dt : ℕ) : ℚ :=
  effects.foldl (fun acc s =>
    if s.effect.effect_type = StatusEffectType.STUN then
      match dictGet s.effect.stun_armor_damage_mods dt with
      | some m => max acc m
      | none => acc
    else acc) 1

/-- The death check that ends `take_damage`: HP clamped at zero and the
liveness flag dropped when it reaches 0. -/
def deathCheck (u : BattleUnit) : BattleUnit :=
  if u.current_hp ≤ 0 then { u with current_hp := 0, is_alive := false } else u

/-- `BattleUnit.take_damage` (src/simulator/battle.py, lines 77-140).
Returns the mutated unit and the `modified_damage` value the source
returns. -/
def take_damage (u : BattleUnit) (damage : ℤ) (damage_type : ℕ)
    (armor_piercing : ℚ) : BattleUnit × ℤ :=
  if u.is_alive = false then (u, 0) else
  let dtype_name := takeDamageTypeName damage_type
  let damage_mod := dictGetD u.template.stats.damage_mods dtype_name 1
  let status_mod := stunDamageModMax u.status_effects damage_type
  let damage_mod := damage_mod * status_mod
  let modified_damage := pyInt ((damage : ℚ) * damage_mod)
  if u.current_armor > 0 ∧ armor_piercing < 1 then
    let armor_damage := pyInt ((modified_damage : ℚ) * (1 - armor_piercing))
    let armor_mod := dictGetD u.template.stats.armor_damage_mods dtype_name 1
    let armor_status_mod := stunArmorDamageModMax u.status_effects damage_type
    let armor_mod := armor_mod * armor_status_mod
    let armor_damage := pyInt ((armor_damage : ℚ) * armor_mod)
    if armor_damage ≥ u.current_armor then
      let overflow := armor_damage - u.current_armor
      (deathCheck { u with current_armor := 0, current_hp := u.current_hp - overflow },
        modified_damage)
    else
      (deathCheck { u with current_armor := u.current_armor - armor_damage }, modified_damage)
  else
    (deathCheck { u with current_hp := u.current_hp - modified_damage }, modified_damage)

/-- `BattleUnit.heal` (src/simulator/battle.py, lines 142-150). -/
def heal (u : BattleUnit) (amount : ℤ) : BattleUnit × ℤ :=
  if u.is_alive = false then (u, 0) else
  let max_hp := u.template.stats.hp
  let old_hp := u.current_hp
  let new_hp := min (u.current_hp + amount) max_hp
  ({ u with current_hp := new_hp }, new_hp - old_hp)

/-- `BattleUnit.can_act`: alive and not under an action-blocking stun. -/
def can_act (u : BattleUnit) : Bool :=
  if u.is_alive = false then false
  else !(u.status_effects.any (fun s =>
    decide (s.effect.effect_type = StatusEffectType.STUN) && s.effect.stun_block_action))

/-- `BattleUnit.tick_cooldowns`: decrement the global and every positive
per-weapon cooldown. -/
def tick_cooldowns (u : BattleUnit) : BattleUnit :=
  let g := if u.global_cooldown > 0 then u.global_cooldown - 1 else u.global_cooldown
  let wc := u.weapon_cooldowns.map (fun p => if p.2 > 0 then (p.1, p.2 - 1) else p)
  { u with global_cooldown := g, weapon_cooldowns := wc }

/-- `BattleUnit.tick_status_effects` (src/simulator/battle.py, lines
193-214): sum `int(source*mult + bonus)` over DOT effects, decrement and
drop expired instances, then deal the sum as FIRE-type damage through
`take_damage`; no decay of any kind.  Returns the unit and the DOT total the
source returns. -/
def tick_status_effects (u : BattleUnit) : BattleUnit × ℤ :=
  let dot_damage := u.status_effects.foldl (fun acc s =>
    if s.effect.effect_type = StatusEffectType.DOT then
      acc + pyInt (s.source_damage * s.effect.dot_ability_damage_mult +
        (s.effect.dot_bonus_damage : ℚ))
    else acc) 0
  let remaining := (u.status_effects.map
    (fun s => { s with remaining_turns := s.remaining_turns - 1 })).filter
    (fun s => decide (s.remaining_turns > 0))
  let u := { u with status_effects := remaining }
  if dot_damage > 0 then ((take_damage u dot_damage 5 0).1, dot_damage)
  else (u, dot_damage)

/-- `BattleState.current_side_units`. -/
def current_side_units (s : BattleState) : List BattleUnit :=
  if s.is_player_turn then s.player_units else s.enemy_units

/-- `BattleState.opposing_side_units`. -/
def opposing_side_units (s : BattleState) : List BattleUnit :=
  if s.is_player_turn then s.enemy_units else s.player_units

/-- The concatenation `self.player_units + self.enemy_units` that
`get_unit_at_position` scans when no side is given. -/
def allUnits (s : BattleState) : List BattleUnit := s.player_units ++ s.enemy_units

/-- Unit value at a slot of the concatenated roster. -/
def getAllUnit (s : BattleState) (i : ℕ) : Option BattleUnit := (allUnits s).get? i

/-- Write back a mutated unit at a slot of the concatenated roster. -/
def setAllUnit (s : BattleState) (i : ℕ) (u : BattleUnit) : BattleState :=
  if i < s.player_units.length then { s with player_units := s.player_units.set i u }
  else { s with enemy_units := s.enemy_units.set (i - s.player_units.length) u }

/-- Mutate the unit at a slot of the concatenated roster in place. -/
def updateAllUnit (s : BattleState) (i : ℕ) (f : BattleUnit → BattleUnit) : BattleState :=
  match getAllUnit s i with
  | some u => setAllUnit s i (f u)
  | none => s

/-- `BattleState.get_unit_at_position` with `side=None`: the first living
unit at the position, scanning players then enemies; embedded as the slot
index into the concatenated roster. -/
def get_unit_at_position_idx (s : BattleState) (pos : Position) : Option ℕ :=
  (allUnits s).findIdx? (fun un => un.is_alive && decide (un.position = pos))

/-- `BattleState._calculate_distance` on the cross-grid path:
`attacker.y + target.y + 1 + |attacker.x - target.x| // 2`. -/
def calculate_distance (attacker_pos target_pos : Position) : ℤ :=
  (attacker_pos.y + target_pos.y + 1) +
    ((attacker_pos.x - target_pos.x).natAbs : ℤ) / 2

/-- `BattleState._has_line_of_sight`: in the shared column, no living unit
strictly between the two rows. -/
def has_line_of_sight (s : BattleState) (attacker_pos target_pos : Position) : Bool :=
  if attacker_pos.x = target_pos.x then
    let min_y := min attacker_pos.y target_pos.y
    let max_y := max attacker_pos.y target_pos.y
    (List.range (max_y - min_y - 1).toNat).all (fun k =>
      match get_unit_at_position_idx s ⟨attacker_pos.x, min_y + 1 + (k : ℤ)⟩ with
      | some _ => false
      | none => true)
  else true

/-- `BattleState._can_target_unit` (src/simulator/battle.py, lines 319-355):
tag check (direct tag, hierarchy children, or the TARGETABLE_ALL tag), range
check, and a line-of-sight check for DIRECT line of fire. -/
def can_target_unit (s : BattleState) (attacker target : BattleUnit)
    (stats : AbilityStats) : Bool :=
  let tag_ok :=
    if stats.targets.isEmpty then true
    else
      let has_valid_tag := stats.targets.any (fun ability_tag =>
        decide (ability_tag ∈ target.template.tags) ||
        (dictGetD s.data_loader.tag_hierarchy ability_tag []).any
          (fun child => decide (child ∈ target.template.tags)))
      has_valid_tag || decide (TARGETABLE_ALL ∈ stats.targets)
  if !tag_ok then false
  else
    let distance := calculate_distance attacker.position target.position
    if distance < stats.min_range ∨ distance > stats.max_range then false
    else if stats.line_of_fire = LineOfFire.DIRECT then
      has_line_of_sight s attacker.position target.position
    else true

/-- `BattleState.get_valid_targets` (src/simulator/battle.py, lines
289-317): positions of the living opposing units that the weapon's first
ability can target. -/
def get_valid_targets (s : BattleState) (attacker : BattleUnit) (weapon_id : ℕ) :
    List Position :=
  match dictGet attacker.template.weapons weapon_id with
  | none => []
  | some weapon =>
    match weapon.abilities with
    | [] => []
    | ability_id :: _ =>
      match s.data_loader.get_ability ability_id with
      | none => []
      | some ability =>
        ((opposing_side_units s).filter (fun t =>
          t.is_alive && can_target_unit s attacker t ability.stats)).map (·.position)

/-- `BattleState._calculate_hit_chance`: `clamp(80 + accuracy - dodge, 5, 95)`. -/
def calculate_hit_chance (attacker defender : BattleUnit) : ℚ :=
  max 5 (min 95 (80 + (attacker.template.stats.accuracy : ℚ) -
    (defender.template.stats.dodge : ℚ)))

/-- `BattleState._calculate_crit_chance`: unit critical + ability critical +
tag bonuses the defender carries. -/
def calculate_crit_chance (attacker defender : BattleUnit) (ability : Ability) : ℚ :=
  attacker.template.stats.critical + ability.stats.critical_hit_percent +
    Combat.critical_bonus_total ability.stats.critical_bonuses defender.template.tags

/-- `BattleState._get_unit_index`: `list.index` over the side list chosen
from the unit's battle side and `player_is_attacker`; `none` is the
`ValueError` when no structurally equal unit is present. -/
def get_unit_index (s : BattleState) (unit : BattleUnit) : Option ℕ :=
  if unit.battle_side = BattleSide.PLAYER_TEAM then
    if s.player_is_attacker then s.player_units.findIdx? (fun u => decide (u = unit))
    else s.enemy_units.findIdx? (fun u => decide (u = unit))
  else
    if s.player_is_attacker then s.enemy_units.findIdx? (fun u => decide (u = unit))
    else s.player_units.findIdx? (fun u => decide (u = unit))

/-- `BattleState._calculate_damage` (src/simulator/battle.py, lines
544-581): weapon roll plus attack contribution minus defense, class modifier
and AOE falloff; `none` is the `ValueError` of `randint` when the weapon's
damage range is inverted. -/
def state_calculate_damage (s : BattleState) (attacker defender : BattleUnit)
    (weapon : Weapon) (ability : Ability) (damage_percent : ℚ) (rng : Rng) :
    Option (ℤ × Rng) := do
  let weapon_stats := weapon.stats
  let (base_damage, rng1) ← rng.randint weapon_stats.base_damage_min
    weapon_stats.base_damage_max
  let attack : ℚ := (ability.stats.attack : ℚ) * ability.stats.attack_from_weapon +
    (weapon_stats.base_atk : ℚ) * ability.stats.attack_from_unit +
    (attacker.template.stats.power : ℚ)
  let defense := defender.template.stats.defense
  let class_mod := s.data_loader.get_class_damage_mod attacker.template.class_type
    defender.template.class_type
  let damage : ℚ := (base_damage : ℚ) + attack - (defense : ℚ)
  let damage := max 1 damage
  let damage : ℤ := pyInt (damage * class_mod)
  let damage := pyInt ((damage : ℚ) * damage_percent / 100)
  some (max 1 damage, rng1)

/-- `BattleState._get_aoe_targets`: slot index and falloff percent of the
living unit at the aim point, then of the living unit at each non-center
splash offset. -/
def get_aoe_targets (s : BattleState) (target_pos : Position) (stats : AbilityStats) :
    List (ℕ × ℚ) :=
  let primary := match get_unit_at_position_idx s target_pos with
    | some i => [(i, (100 : ℚ))]
    | none => []
  primary ++ stats.damage_area.filterMap (fun area =>
    if area.pos.x = 0 ∧ area.pos.y = 0 then none
    else (get_unit_at_position_idx s
      ⟨target_pos.x + area.pos.x, target_pos.y + area.pos.y⟩).map
      (fun i => (i, area.damage_percent)))

/-- On-hit status-effect pass of `_execute_attack`: one chance roll per
entry of the ability's status-effect dict; on success and a known,
non-immune template, append a fresh instance capturing the hit's damage. -/
def apply_on_hit_effects (s : BattleState) (res : ActionResult) (tidx target_idx : ℕ)
    (damage : ℤ) : List (ℕ × ℚ) → ActionResult × BattleState
  | [] => (res, s)
  | (effect_id, apply_chance) :: rest =>
    let rr := s.rng.randomQ
    let r := rr.1
    let s := { s with rng := rr.2 }
    if r * 100 < apply_chance then
      match dictGet s.data_loader.status_effects effect_id, getAllUnit s tidx with
      | some effect, some target =>
        if effect_id ∈ target.template.stats.status_effect_immunities then
          apply_on_hit_effects s res tidx target_idx damage rest
        else
          let s := setAllUnit s tidx { target with status_effects :=
            target.status_effects ++ [⟨effect, effect.duration, (damage : ℚ)⟩] }
          let res := { res with status_applied := res.status_applied ++ [(target_idx, effect_id)] }
          apply_on_hit_effects s res tidx target_idx damage rest
      | _, _ => apply_on_hit_effects s res tidx target_idx damage rest
    else apply_on_hit_effects s res tidx target_idx damage rest

/-- Target loop of `BattleState._execute_attack` (src/simulator/battle.py,
lines 460-518): per affected unit, damage roll, hit roll, crit roll,
`take_damage`, result bookkeeping, then on-hit status effects.  `none`
propagates an uncaught `ValueError`. -/
def execute_attack_go (s : BattleState) (attacker : BattleUnit) (weapon : Weapon)
    (ability : Ability) (res : ActionResult) :
    List (ℕ × ℚ) → Option (ActionResult × BattleState)
  | [] => some (res, s)
  | (tidx, damage_percent) :: rest =>
    match getAllUnit s tidx with
    | none => execute_attack_go s attacker weapon ability res rest
    | some target_unit =>
      if target_unit.is_alive = false then
        execute_attack_go s attacker weapon ability res rest
      else
        match state_calculate_damage s attacker target_unit weapon ability
            damage_percent s.rng with
        | none => none
        | some dmgr =>
          let damage := dmgr.1
          let rng1 := dmgr.2
          let hit_chance := calculate_hit_chance attacker target_unit
          let hitr := rng1.randomQ
          if hitr.1 * 100 > hit_chance then
            execute_attack_go { s with rng := hitr.2 } attacker weapon ability res rest
          else
            let crit_chance := calculate_crit_chance attacker target_unit ability
            let critr := hitr.2.randomQ
            let is_crit : Bool := decide (critr.1 * 100 < crit_chance)
            let damage := if is_crit then pyInt ((damage : ℚ) * (3 / 2)) else damage
            let td := take_damage target_unit damage
              ability.stats.damage_type ability.stats.armor_piercing_percent
            let target' := td.1
            let actual_damage := td.2
            let s := setAllUnit { s with rng := critr.2 } tidx target'
            match get_unit_index s target' with
            | none => none
            | some target_idx =>
              let res := { res with damage_dealt :=
                (dictSet res.damage_dealt target_idx
                  (dictGetD res.damage_dealt target_idx 0 + actual_damage)) }
              let res := if target'.is_alive = false then
                  { res with kills := res.kills ++ [target_idx] }
                else res
              let ar := apply_on_hit_effects s res tidx target_idx damage
                ability.stats.status_effects
              execute_attack_go ar.2 attacker weapon ability ar.1 rest

/-- `BattleState._execute_attack`: resolve the AOE targets once against the
pre-attack state, then run the target loop with a fresh successful result. -/
def execute_attack (s : BattleState) (attacker : BattleUnit) (weapon : Weapon)
    (ability : Ability) (target_pos : Position) : Option (ActionResult × BattleState) :=
  let targets := get_aoe_targets s target_pos ability.stats
  execute_attack_go s attacker weapon ability ⟨true, [], [], [], ""⟩ targets

/-- `BattleState.execute_action` (src/simulator/battle.py, lines 420-458):
validation returning failure results, then the attack, cooldowns, ammo and
history bookkeeping.  `none` is an uncaught exception (in particular the
`IndexError` that `units[action.unit_index]` raises for a negative index
below `-len(units)`). -/
def execute_action (s : BattleState) (action : BattleAction) :
    Option (ActionResult × BattleState) :=
  let units := current_side_units s
  if (units.length : ℤ) ≤ action.unit_index then
    some (ActionResult.failure ("Invalid unit index"), s)
  else match pyGet units action.unit_index with
  | none => none
  | some unit =>
    if can_act unit = false then some (ActionResult.failure ("Unit cannot act"), s)
    else match dictGet unit.template.weapons action.weapon_id with
    | none => some (ActionResult.failure ("Invalid weapon"), s)
    | some weapon =>
      match weapon.abilities with
      | [] => some (ActionResult.failure ("No ability for weapon"), s)
      | ability_id :: _ =>
        match s.data_loader.get_ability ability_id with
        | none => some (ActionResult.failure ("Ability not found"), s)
        | some ability =>
          let uidx := pyIdx units.length action.unit_index
          let attacker_all_idx := if s.is_player_turn then uidx
            else s.player_units.length + uidx
          match execute_attack s unit weapon ability action.target_position with
          | none => none
          | some rs =>
          let result := rs.1
          let s1 := rs.2
          let s2 := updateAllUnit s1 attacker_all_idx (fun u =>
            let u := { u with weapon_cooldowns :=
              (dictSet u.weapon_cooldowns action.weapon_id ability.stats.ability_cooldown) }
            if ability.stats.global_cooldown > 0 then
              { u with global_cooldown := ability.stats.global_cooldown }
            else u)
          let s3 := if weapon.stats.ammo ≥ 0 then
              updateAllUnit s2 attacker_all_idx (fun u =>
                { u with ammo := (dictSet u.ammo action.weapon_id
                    (dictGetD u.ammo action.weapon_id 0 - 1)) })
            else s2
          let s4 := { s3 with action_history := s3.action_history ++ [(action, result)] }
          some (result, s4)

/-- `BattleState._check_battle_end`: a side with no living non-unimportant
unit loses. -/
def check_battle_end (s : BattleState) : BattleState :=
  let player_alive := s.player_units.any (fun u => u.is_alive && !u.template.unimportant)
  let enemy_alive := s.enemy_units.any (fun u => u.is_alive && !u.template.unimportant)
  if !enemy_alive then { s with result := BattleResult.PLAYER_WIN }
  else if !player_alive then { s with result := BattleResult.ENEMY_WIN }
  else s

/-- `BattleState.end_turn` (src/simulator/battle.py, lines 617-632): tick
cooldowns and status effects for the side that acted, switch sides,
increment the turn counter when play returns to the player, then check the
terminal conditions. -/
def end_turn (s : BattleState) : BattleState :=
  let units := (current_side_units s).map (fun u => (tick_status_effects (tick_cooldowns u)).1)
  let s := if s.is_player_turn then { s with player_units := units }
    else { s with enemy_units := units }
  let s := { s with is_player_turn := !s.is_player_turn }
  let s := if s.is_player_turn then { s with turn_number := s.turn_number + 1 } else s
  check_battle_end s

/-- `BattleState.seed`: reseed the instance-owned generator. -/
def seed (s : BattleState) (v : ℤ) : BattleState := { s with rng := Rng.seedInit v }

/-- One driver call against a battle state: an `execute_action` or an
`end_turn`. -/
inductive BattleCmd where
  | act (a : BattleAction)
  | endTurn
  deriving DecidableEq

/-- Run a fixed sequence of driver calls, recording each action's result;
an uncaught exception aborts the run (recorded as a final `none`). -/
def runScript : BattleState → List BattleCmd → (List (Option ActionResult) × BattleState)
  | s, [] => ([], s)
  | s, BattleCmd.act a :: rest =>
    match execute_action s a with
    | some (r, s') =>
      let t := runScript s' rest
      (some r :: t.1, t.2)
    | none => ([none], s)
  | s, BattleCmd.endTurn :: rest => runScript (end_turn s) rest

/-- The battle state with the generator field blanked: equality of two
states under `eraseRng` says they agree on rosters, layout, content store,
turn bookkeeping, result and history — everything except the generator. -/
def eraseRng (s : BattleState) : BattleState := { s with rng := ⟨0⟩ }

end Battle

namespace Engine

/-- Active status-effect instance as used by
`BattleEngine.process_status_effects` (src/battle_engine.py, lines 541-590),
restricted to the fields those lines read. -/
structure BEStatusEffect where
  effect_type : ℕ
  source_damage : ℚ
  dot_ability_damage_mult : ℚ
  dot_bonus_damage : ℤ
  dot_ap_percent : ℚ
  dot_diminishing : Bool
  remaining_turns : ℤ
  deriving DecidableEq

/-- Unit as touched by `BattleEngine.process_status_effects`, restricted to
the fields those lines read or write. -/
structure BEUnit where
  current_hp : ℤ
  current_armor : ℤ
  is_alive : Bool
  status_effects : List BEStatusEffect
  deriving DecidableEq

/-- Per-effect loop of `BattleEngine.process_status_effects` for one unit:
tick the DOT through the local armor split, then — when the template is
diminishing — halve the captured source damage (`effect.source_damage *=
0.5`), decrement the remaining turns and drop expired instances.  The
battle-wide damage statistics of those lines are not modelled. -/
def beProcessGo : BEUnit → List BEStatusEffect → BEUnit × List BEStatusEffect
  | u, [] => (u, [])
  | u, e :: rest =>
    let step : BEUnit × BEStatusEffect :=
      if e.effect_type = StatusEffectType.DOT then
        let dot_damage := pyInt (e.source_damage * e.dot_ability_damage_mult +
          (e.dot_bonus_damage : ℚ))
        let u' :=
          if u.current_armor > 0 then
            let piercing := pyInt ((dot_damage : ℚ) * e.dot_ap_percent)
            let armor_damage := min (dot_damage - piercing) u.current_armor
            let hp_damage := piercing + max 0 (dot_damage - armor_damage - piercing)
            { u with current_armor := u.current_armor - armor_damage,
                     current_hp := max 0 (u.current_hp - hp_damage) }
          else
            { u with current_hp := max 0 (u.current_hp - dot_damage) }
        let e' := if e.dot_diminishing then
            { e with source_damage := e.source_damage * (1 / 2) }
          else e
        (u', e')
      else (u, e)
    let e2 : BEStatusEffect := { step.2 with remaining_turns := step.2.remaining_turns - 1 }
    let next := beProcessGo step.1 rest
    (next.1, if e2.remaining_turns ≤ 0 then next.2 else e2 :: next.2)

/-- `BattleEngine.process_status_effects` for a single living unit. -/
def beProcessUnit (u : BEUnit) : BEUnit :=
  if u.is_alive = false then u
  else
    let r := beProcessGo u u.status_effects
    { r.1 with status_effects := r.2 }

end Engine

/-! Basic facts about the Python `int()` truncation. -/

theorem pyInt_of_nonneg {q : ℚ} (h : 0 ≤ q) : pyInt q = ⌊q⌋ := by
  simp [pyInt, h]

theorem pyInt_nonneg {q : ℚ} (h : 0 ≤ q) : 0 ≤ pyInt q := by
  rw [pyInt_of_nonneg h]
  exact Int.floor_nonneg.mpr h

theorem pyInt_le {q : ℚ} (h : 0 ≤ q) : (pyInt q : ℚ) ≤ q := by
  rw [pyInt_of_nonneg h]
  exact Int.floor_le q

theorem pyInt_intCast (n : ℤ) : pyInt ((n : ℤ) : ℚ) = n := by
  unfold pyInt
  split <;> simp

/-! Concrete fixtures used by the claim theorems below. -/

def baseStats : UnitStats :=
  { hp := 100, defense := 0, accuracy := 0, dodge := 0, critical := 0, power := 0,
    blocking := 0, armor_hp := 0, armor_def_style := 0, damage_mods := [],
    armor_damage_mods := [], status_effect_immunities := [] }

def baseTemplate : UnitTemplate :=
  { id := 1, class_type := 13, tags := [], stats := baseStats, weapons := [],
    unimportant := false }

def baseUnit : BattleUnit :=
  { template := baseTemplate, position := ⟨0, 0⟩, battle_side := BattleSide.PLAYER_TEAM,
    current_hp := 100, current_armor := 0, is_alive := true, weapon_cooldowns := [],
    global_cooldown := 0, ammo := [], status_effects := [] }

def emptyLoader : GameDataLoader := ⟨[], [], [], []⟩

/-! ## C10 — healing clamps at the template maximum and never resurrects -/

/-- C10: for a living unit and a non-negative amount, `heal` sets current HP
to `min(current HP + amount, template max HP)` and returns exactly the
achieved increase, so healing never raises HP above the template maximum and
touches no other field; on a dead unit it returns 0 and changes nothing. -/
theorem C10_heal_caps_at_max (u : BattleUnit) (amount : ℤ) (hamt : 0 ≤ amount) :
    (u.is_alive = true →
      (Battle.heal u amount).1.current_hp = min (u.current_hp + amount) u.template.stats.hp ∧
      (Battle.heal u amount).2 = (Battle.heal u amount).1.current_hp - u.current_hp ∧
      (Battle.heal u amount).1.current_hp ≤ u.template.stats.hp ∧
      (Battle.heal u amount).1 =
        { u with current_hp := min (u.current_hp + amount) u.template.stats.hp }) ∧
    (u.is_alive = false → Battle.heal u amount = (u, 0)) := by
  unfold Battle.heal
  constructor
  · intro h
    simp [h, min_le_right]
  · intro h
    simp [h]

def c10_unit : BattleUnit := { baseUnit with current_hp := 50 }

/-- Witness for C10 at a living unit with 50/100 HP healed by 60: the HP caps
at 100 and the reported healing is the achieved 50. -/
theorem C10_heal_caps_at_max_witness :
    (0 : ℤ) ≤ 60 ∧
    ((c10_unit.is_alive = true →
      (Battle.heal c10_unit 60).1.current_hp =
        min (c10_unit.current_hp + 60) c10_unit.template.stats.hp ∧
      (Battle.heal c10_unit 60).2 =
        (Battle.heal c10_unit 60).1.current_hp - c10_unit.current_hp ∧
      (Battle.heal c10_unit 60).1.current_hp ≤ c10_unit.template.stats.hp ∧
      (Battle.heal c10_unit 60).1 =
        { c10_unit with current_hp := (min (c10_unit.current_hp + 60) c10_unit.template.stats.hp) }) ∧
    (c10_unit.is_alive = false → Battle.heal c10_unit 60 = (c10_unit, 0))) :=
  ⟨by norm_num, C10_heal_caps_at_max c10_unit 60 (by norm_num)⟩

/-! ## C9 — a battle's run is reproducible from the seed alone -/

/-- C9: two battle states that agree on rosters, layout, content store, turn
bookkeeping, result and history — everything except their instance-owned
generator — and are reseeded with the same value run any fixed sequence of
`execute_action`/`end_turn` calls to identical action results and identical
final states (so HP/armor trajectories and the battle result coincide): all
randomness is drawn from the instance's generator, which `seed` makes a
function of the seed value alone. -/
theorem C9_seed_reproducibility (s1 s2 : BattleState) (v : ℤ)
    (script : List Battle.BattleCmd)
    (h : Battle.eraseRng s1 = Battle.eraseRng s2) :
    Battle.runScript (Battle.seed s1 v) script = Battle.runScript (Battle.seed s2 v) script := by
  have hseed : Battle.seed s1 v = Battle.seed s2 v := by
    have h2 := congrArg (fun t => { t with rng := Rng.seedInit v }) h
    simpa [Battle.eraseRng, Battle.seed] using h2
  rw [hseed]

def c9_enemy : BattleUnit :=
  { baseUnit with
    battle_side := BattleSide.ENEMY_TEAM,
    position := ⟨0, 1⟩ }

def c9_base : BattleState :=
  { data_loader := emptyLoader, layout := ⟨5, 3⟩, player_units := [baseUnit],
    enemy_units := [c9_enemy],
    player_is_attacker := true, turn_number := 0, is_player_turn := true,
    result := 0, action_history := [], rng := ⟨5⟩ }

def c9_other : BattleState := { c9_base with rng := ⟨999⟩ }

/-- Witness for C9: two states differing only in their generator, reseeded
with 42, run an end-turn script to the same outcome. -/
theorem C9_seed_reproducibility_witness :
    Battle.eraseRng c9_base = Battle.eraseRng c9_other ∧
    Battle.runScript (Battle.seed c9_base 42) [Battle.BattleCmd.endTurn] =
      Battle.runScript (Battle.seed c9_other 42) [Battle.BattleCmd.endTurn] :=
  ⟨rfl, C9_seed_reproducibility c9_base c9_other 42 [Battle.BattleCmd.endTurn] rfl⟩

/-! ## C6 — fixed single-target patterns are not resolved by the resolver -/

def c6_stats : AbilityStats :=
  { ability_cooldown := 0, global_cooldown := 0, attack := 0, damage := 0,
    damage_type := 1, armor_piercing_percent := 0, attack_from_unit := 1,
    attack_from_weapon := 1, critical_hit_percent := 0, critical_bonuses := [],
    min_range := 1, max_range := 5, line_of_fire := 1, attack_direction := 0,
    damage_area := [], target_area := some ⟨TargetType.SINGLE, [⟨⟨1, 0⟩, 50, 1⟩], false⟩,
    targets := [], status_effects := [] }

def c6_ability : Ability := ⟨900, c6_stats⟩

/-- C6: an ability whose target pattern has type SINGLE, is not random, and
lists the non-zero offset (1,0) at 50% is classified as a fixed attack by
`is_fixed_attack`, yet `resolve_target_area` returns only the aim point at
100% — the listed offset position never fires, contradicting the claim that
all listed offsets fire at their percentages. -/
theorem C6_fixed_pattern_not_resolved :
    Combat.is_fixed_attack c6_ability = true ∧
    (Combat.resolveTargetArea c6_ability ⟨2, 1⟩ ⟨0⟩).1 = [(⟨2, 1⟩, 100)] ∧
    ¬((Position.mk 3 1, (50 : ℚ)) ∈ (Combat.resolveTargetArea c6_ability ⟨2, 1⟩ ⟨0⟩).1) := by
  refine ⟨?_, ?_, ?_⟩ <;>
    simp [Combat.is_fixed_attack, Combat.resolveTargetArea, c6_ability, c6_stats,
      TargetType.SINGLE, TargetType.ALL_ENEMIES, Position.mk.injEq]

/-! ## C2 — damage-over-time decay -/

def c2_eff : StatusEffectDef :=
  { id := 3, effect_type := 1, family := 3, duration := 4, dot_damage_type := 2,
    dot_ability_damage_mult := 1, dot_bonus_damage := 0, dot_ap_percent := 0,
    dot_diminishing := true, stun_block_action := false, stun_damage_mods := [],
    stun_armor_damage_mods := [] }

def c2_unit : BattleUnit :=
  { baseUnit with
    current_hp := 1000,
    template := { baseTemplate with stats := { baseStats with hp := 1000 } },
    status_effects := [⟨c2_eff, 4, 100⟩] }

def c2_beunit : Engine.BEUnit := ⟨1000, 0, true, [⟨1, 100, 1, 0, 0, true, 4⟩]⟩

/-- C2: for a diminishing DOT with original tick 100 and duration 4, the
claim's decay formula gives floor(100·(4−2+1)/4) = 75 at elapsed turn 2, but
neither cited implementation produces it.  The simulator's `process_effects`
(src/simulator/combat.py) raises `AttributeError` at runtime (its
`apply_damage` call evaluates a nonexistent `DamageType` member); its body
semantics apply the undecayed 100 on every tick (second tick 100 ≠ 75); and
`BattleEngine.process_status_effects` (src/battle_engine.py) instead halves
the captured source damage after each tick, making the second tick
50 ≠ 75. -/
theorem C2_diminishing_dot_decay :
    (Combat.processEffectsPy c2_unit = none) ∧
    ((Combat.processEffectsBody c2_unit).2 = 100 ∧
      (Combat.processEffectsBody c2_unit).1.current_hp = 900 ∧
      (Combat.processEffectsBody (Combat.processEffectsBody c2_unit).1).2 = 100) ∧
    ((Engine.beProcessUnit c2_beunit).current_hp = 900 ∧
      (Engine.beProcessUnit (Engine.beProcessUnit c2_beunit)).current_hp = 850) ∧
    (pyInt ((100 : ℚ) * ((4 - 2 + 1 : ℚ) / 4)) = 75 ∧ (100 : ℤ) ≠ 75 ∧ (50 : ℤ) ≠ 75) := by
  refine ⟨?_, ?_, ?_, ?_⟩
  · norm_num [Combat.processEffectsPy, Combat.processEffectsPyGo, Combat.applyDamagePy,
      c2_unit, c2_eff, baseUnit, baseTemplate, baseStats, StatusEffectType.DOT, pyInt]
  · norm_num [Combat.processEffectsBody, Combat.processEffectsBodyGo, Combat.applyDamageBody,
      Combat.applyDamageTypeName, Combat.applyHpLoss, c2_unit, c2_eff, baseUnit,
      baseTemplate, baseStats, StatusEffectType.DOT, pyInt, dictGetD, dictGet,
      dt_cold, dt_piercing, dt_crushing, dt_explosive, dt_fire]
  · norm_num [Engine.beProcessUnit, Engine.beProcessGo, c2_beunit,
      StatusEffectType.DOT, pyInt]
  · norm_num [pyInt]

/-! ## C3 — line-of-fire blocking -/

def c3_blocker : BattleUnit :=
  { baseUnit with
    battle_side := BattleSide.ENEMY_TEAM,
    position := ⟨2, 0⟩,
    template := { baseTemplate with stats := { baseStats with blocking := 1 } } }

/-- Blocked-iff characterization of the sorted-scan in
`check_line_of_fire`'s body: some unit of the list is alive, stands in the
target's column strictly in front of it, and meets the blocking threshold. -/
theorem c3_any_blocker_iff (thr : ℕ) (tpos : Position) (units : List BattleUnit) :
    (((units.filter (fun u => u.is_alive && !(decide (u.position = tpos)) &&
        decide (u.position.x = tpos.x) && decide (u.position.y < tpos.y))).insertionSort
        (fun a b => a.position.y ≤ b.position.y)).any
      (fun b => decide (thr ≤ b.template.stats.blocking)) = true) ↔
    ∃ u ∈ units, u.is_alive = true ∧ u.position.x = tpos.x ∧ u.position.y < tpos.y ∧
      thr ≤ u.template.stats.blocking := by
  rw [List.any_eq_true]
  constructor
  · rintro ⟨x, hx, hp⟩
    have hx2 : x ∈ units.filter (fun u => u.is_alive && !(decide (u.position = tpos)) &&
        decide (u.position.x = tpos.x) && decide (u.position.y < tpos.y)) :=
      (List.perm_insertionSort _ _).mem_iff.mp hx
    obtain ⟨hmem, hpred⟩ := List.mem_filter.mp hx2
    simp only [Bool.and_eq_true, decide_eq_true_eq] at hpred
    exact ⟨x, hmem, hpred.1.1.1, hpred.1.2, hpred.2, by simpa using hp⟩
  · rintro ⟨u, hu, ha, hx, hy, hb⟩
    refine ⟨u, ?_, by simpa using hb⟩
    apply (List.perm_insertionSort _ _).mem_iff.mpr
    apply List.mem_filter.mpr
    refine ⟨hu, ?_⟩
    have hne : u.position ≠ tpos := by
      intro he
      rw [he] at hy
      exact lt_irrefl _ hy
    simp [ha, hx, hy, hne]

/-- C3: the line-of-fire check as shipped raises `AttributeError` for DIRECT
fire (src/simulator/enums.py defines no `LineOfFire.CONTACT`/`PRECISE`, and
the runtime `INDIRECT` value 2 collides with the TypeScript `PRECISE`), so
the claimed behaviour only holds of the function body under the enum values
the repository's own tests assert: DIRECT fire is blocked exactly by a
living PARTIAL-or-higher blocker in the target's column strictly in front of
it, PRECISE only by FULL-or-higher, INDIRECT never, and a single sufficient
blocker blocks every target behind it in that column. -/
theorem C3_line_of_fire_blocking :
    (Combat.checkLineOfFirePy LineOfFire.DIRECT ⟨2, 1⟩ [c3_blocker] = none) ∧
    (∀ (tpos : Position) (units : List BattleUnit),
      Combat.checkLineOfFireTS LineOfFireTS.DIRECT tpos units = true ↔
      ∃ u ∈ units, u.is_alive = true ∧ u.position.x = tpos.x ∧ u.position.y < tpos.y ∧
        UnitBlocking.PARTIAL ≤ u.template.stats.blocking) ∧
    (∀ (tpos : Position) (units : List BattleUnit),
      Combat.checkLineOfFireTS LineOfFireTS.PRECISE tpos units = true ↔
      ∃ u ∈ units, u.is_alive = true ∧ u.position.x = tpos.x ∧ u.position.y < tpos.y ∧
        UnitBlocking.FULL ≤ u.template.stats.blocking) ∧
    (∀ (tpos : Position) (units : List BattleUnit),
      Combat.checkLineOfFireTS LineOfFireTS.INDIRECT tpos units = false) ∧
    (∀ (units : List BattleUnit) (b : BattleUnit), b ∈ units → b.is_alive = true →
      UnitBlocking.PARTIAL ≤ b.template.stats.blocking →
      ∀ tpos : Position, b.position.x = tpos.x → b.position.y < tpos.y →
        Combat.checkLineOfFireTS LineOfFireTS.DIRECT tpos units = true) := by
  refine ⟨?_, ?_, ?_, ?_, ?_⟩
  · simp [Combat.checkLineOfFirePy, LineOfFire.DIRECT, LineOfFire.INDIRECT]
  · intro tpos units
    simpa [Combat.checkLineOfFireTS, LineOfFireTS.DIRECT, LineOfFireTS.PRECISE,
      LineOfFireTS.CONTACT, LineOfFireTS.INDIRECT] using
      c3_any_blocker_iff UnitBlocking.PARTIAL tpos units
  · intro tpos units
    simpa [Combat.checkLineOfFireTS, LineOfFireTS.DIRECT, LineOfFireTS.PRECISE,
      LineOfFireTS.CONTACT, LineOfFireTS.INDIRECT] using
      c3_any_blocker_iff UnitBlocking.FULL tpos units
  · intro tpos units
    simp [Combat.checkLineOfFireTS, LineOfFireTS.INDIRECT]
  · intro units b hmem ha hb tpos hx hy
    have hiff : Combat.checkLineOfFireTS LineOfFireTS.DIRECT tpos units = true ↔
        ∃ u ∈ units, u.is_alive = true ∧ u.position.x = tpos.x ∧ u.position.y < tpos.y ∧
          UnitBlocking.PARTIAL ≤ u.template.stats.blocking := by
      simpa [Combat.checkLineOfFireTS, LineOfFireTS.DIRECT, LineOfFireTS.PRECISE,
        LineOfFireTS.CONTACT, LineOfFireTS.INDIRECT] using
        c3_any_blocker_iff UnitBlocking.PARTIAL tpos units
    exact hiff.mpr ⟨b, hmem, ha, hx, hy, hb⟩

/-- Witness for C3's blocking propagation at a concrete PARTIAL blocker in
column 2, row 0, blocking the target cell (2,1) behind it for DIRECT fire. -/
theorem C3_line_of_fire_blocking_witness :
    c3_blocker ∈ [c3_blocker] ∧ c3_blocker.is_alive = true ∧
    UnitBlocking.PARTIAL ≤ c3_blocker.template.stats.blocking ∧
    c3_blocker.position.x = (2 : ℤ) ∧ c3_blocker.position.y < (1 : ℤ) ∧
    Combat.checkLineOfFireTS LineOfFireTS.DIRECT ⟨2, 1⟩ [c3_blocker] = true :=
  ⟨List.mem_singleton.mpr rfl, rfl, by norm_num [c3_blocker, baseTemplate, baseStats,
      UnitBlocking.PARTIAL], rfl, by norm_num [c3_blocker], by
    exact C3_line_of_fire_blocking.2.2.2.2 [c3_blocker] c3_blocker
      (List.mem_singleton.mpr rfl) rfl
      (by norm_num [c3_blocker, baseTemplate, baseStats, UnitBlocking.PARTIAL])
      ⟨2, 1⟩ rfl (by norm_num [c3_blocker])⟩

/-! ## C5 — status-effect stacking identity -/

def c5_effA : StatusEffectDef :=
  { id := 1, effect_type := 1, family := 5, duration := 3, dot_damage_type := 5,
    dot_ability_damage_mult := 1, dot_bonus_damage := 0, dot_ap_percent := 0,
    dot_diminishing := true, stun_block_action := false, stun_damage_mods := [],
    stun_armor_damage_mods := [] }

def c5_effB : StatusEffectDef := { c5_effA with id := 2 }

def c5_target : BattleUnit := { baseUnit with status_effects := [⟨c5_effA, 1, 10⟩] }

def c5_store : List (ℕ × StatusEffectDef) := [(1, c5_effA), (2, c5_effB)]

/-- C5 counterexample: effect 2 shares family 5 with the already-active
effect 1 but has a different id, so a successful application appends a new
instance and leaves the active one with its old remaining turn and old
captured source damage — it is not refreshed, contradicting the claimed
same-family refresh. -/
theorem C5_same_family_appends_new_instance :
    c5_effA.family = c5_effB.family ∧ c5_effA.id ≠ c5_effB.id ∧
    (Combat.tryApplyEffect c5_store c5_target 2 100 20 ⟨0⟩).1 = true ∧
    (Combat.tryApplyEffect c5_store c5_target 2 100 20 ⟨0⟩).2.1.status_effects =
      [⟨c5_effA, 1, 10⟩, ⟨c5_effB, 3, 20⟩] := by
  refine ⟨rfl, by norm_num [c5_effA, c5_effB], ?_, ?_⟩ <;>
    norm_num [Combat.tryApplyEffect, Combat.refreshFirst, c5_store, c5_target, c5_effA,
      c5_effB, baseUnit, baseTemplate, baseStats, dictGet, List.find?, Rng.randomQ,
      rngNext]

/-- First-match refresh finds nothing when no active instance carries the
effect id. -/
theorem refreshFirst_none {l : List ActiveStatusEffect} {eff : StatusEffectDef}
    {eid : ℕ} {src : ℚ} (h : ∀ s ∈ l, s.effect.id ≠ eid) :
    Combat.refreshFirst l eff eid src = none := by
  induction l with
  | nil => rfl
  | cons s t ih =>
    have hs := h s (List.mem_cons_self s t)
    simp only [Combat.refreshFirst, hs, if_false]
    rw [ih (fun x hx => h x (List.mem_cons_of_mem s hx))]
    rfl

/-- First-match refresh updates exactly the first instance carrying the
effect id: remaining turns reset to the template's duration, captured source
damage to the max of old and new, everything else untouched. -/
theorem refreshFirst_found {pre post : List ActiveStatusEffect}
    {inst : ActiveStatusEffect} {eff : StatusEffectDef} {eid : ℕ} {src : ℚ}
    (hpre : ∀ s ∈ pre, s.effect.id ≠ eid) (hinst : inst.effect.id = eid) :
    Combat.refreshFirst (pre ++ inst :: post) eff eid src =
      some (pre ++
        ({ inst with
           remaining_turns := eff.duration,
           source_damage := max inst.source_damage src }) :: post) := by
  induction pre with
  | nil => simp [Combat.refreshFirst, hinst]
  | cons s t ih =>
    have hs := hpre s (List.mem_cons_self s t)
    have ih2 := ih (fun x hx => hpre x (List.mem_cons_of_mem s hx))
    simp only [List.cons_append, Combat.refreshFirst, hs, if_false, List.append_eq]
    rw [ih2]
    rfl

/-- C5 (amended: matching is by effect id, not family): for a successful
application attempt — target not immune, template found, chance roll passes
— an already-active instance with the same effect id has its remaining turns
reset to the template's full duration and its captured source damage set to
the maximum of old and new; otherwise a new instance is appended with full
duration and the new captured source damage. -/
theorem C5_refresh_by_effect_id (store : List (ℕ × StatusEffectDef))
    (target : BattleUnit) (eid : ℕ) (chance src : ℚ) (rng : Rng)
    (eff : StatusEffectDef)
    (himm : eid ∉ target.template.stats.status_effect_immunities)
    (heff : dictGet store eid = some eff)
    (hroll : rng.randomQ.1 * 100 < chance) :
    (∀ (pre post : List ActiveStatusEffect) (inst : ActiveStatusEffect),
      target.status_effects = pre ++ inst :: post →
      (∀ s ∈ pre, s.effect.id ≠ eid) → inst.effect.id = eid →
      Combat.tryApplyEffect store target eid chance src rng =
        (true, { target with status_effects :=
          (pre ++
            ({ inst with
               remaining_turns := eff.duration,
               source_damage := max inst.source_damage src }) :: post) },
          rng.randomQ.2)) ∧
    ((∀ s ∈ target.status_effects, s.effect.id ≠ eid) →
      Combat.tryApplyEffect store target eid chance src rng =
        (true, { target with status_effects :=
          (target.status_effects ++ [⟨eff, eff.duration, src⟩]) }, rng.randomQ.2)) := by
  have hnotge : ¬(rng.randomQ.1 * 100 ≥ chance) := not_le.mpr hroll
  constructor
  · intro pre post inst hsplit hpre hinst
    unfold Combat.tryApplyEffect
    rw [if_neg himm, heff]
    rcases hr : rng.randomQ with ⟨r, g⟩
    rw [hr] at hnotge
    simp only [if_neg hnotge]
    rw [hsplit, refreshFirst_found hpre hinst]
  · intro hnone
    unfold Combat.tryApplyEffect
    rw [if_neg himm, heff]
    rcases hr : rng.randomQ with ⟨r, g⟩
    rw [hr] at hnotge
    simp only [if_neg hnotge]
    rw [refreshFirst_none hnone]

/-- Witness for C5 (amended) at effect id 1, which the target already
carries with 1 remaining turn and captured damage 10: the instance is
refreshed in place to the full duration 3 and captured damage max(10,20). -/
theorem C5_refresh_by_effect_id_witness :
    (1 : ℕ) ∉ c5_target.template.stats.status_effect_immunities ∧
    dictGet c5_store 1 = some c5_effA ∧
    (Rng.mk 0).randomQ.1 * 100 < (100 : ℚ) ∧
    Combat.tryApplyEffect c5_store c5_target 1 100 20 ⟨0⟩ =
      (true, { c5_target with status_effects :=
        (([] : List ActiveStatusEffect) ++
          ({ ActiveStatusEffect.mk c5_effA 1 10 with
             remaining_turns := c5_effA.duration,
             source_damage := max (10 : ℚ) 20 }) :: []) },
        (Rng.mk 0).randomQ.2) := by
  have h1 : (1 : ℕ) ∉ c5_target.template.stats.status_effect_immunities := by
    simp [c5_target, baseUnit, baseTemplate, baseStats]
  have h2 : dictGet c5_store 1 = some c5_effA := by
    simp [c5_store, dictGet, List.find?]
  have h3 : (Rng.mk 0).randomQ.1 * 100 < (100 : ℚ) := by
    norm_num [Rng.randomQ, rngNext]
  exact ⟨h1, h2, h3,
    (C5_refresh_by_effect_id c5_store c5_target 1 100 20 ⟨0⟩ c5_effA h1 h2 h3).1
      [] [] ⟨c5_effA, 1, 10⟩ rfl (by simp) rfl⟩

/-! ## C4 — dodge chance clamping and full negation on dodge -/

/-- C4: the dodge chance used by `calculate_damage` — the 95-cap applied to
`calculate_dodge_chance` — equals `defense - (ability attack + attacker
accuracy) + 5` clamped to `[0, 95]` for arbitrary stat magnitudes, and when
the dodge roll succeeds `calculate_damage` returns zero damage with the
dodged flag set and no critical flag, consuming only that one draw. -/
theorem C4_dodge_clamped (cmods : List (ℕ × List (ℕ × ℚ)))
    (attacker defender : BattleUnit) (weapon : Weapon) (ability : Ability)
    (damage_percent : ℚ) (rng : Rng) :
    (0 ≤ min (95 : ℚ) (Combat.calculate_dodge_chance defender.template.stats.defense
        (ability.stats.attack + attacker.template.stats.accuracy)) ∧
      min (95 : ℚ) (Combat.calculate_dodge_chance defender.template.stats.defense
        (ability.stats.attack + attacker.template.stats.accuracy)) ≤ 95 ∧
      min (95 : ℚ) (Combat.calculate_dodge_chance defender.template.stats.defense
        (ability.stats.attack + attacker.template.stats.accuracy)) =
        max 0 (min 95 ((defender.template.stats.defense : ℚ) -
          ((ability.stats.attack : ℚ) + (attacker.template.stats.accuracy : ℚ)) + 5))) ∧
    (rng.randomQ.1 * 100 < min (95 : ℚ)
        (Combat.calculate_dodge_chance defender.template.stats.defense
          (ability.stats.attack + attacker.template.stats.accuracy)) →
      Combat.calculate_damage cmods attacker defender weapon ability damage_percent rng =
        some ((0, false, true), rng.randomQ.2)) := by
  constructor
  · refine ⟨le_min (by norm_num) ?_, min_le_left _ _, ?_⟩
    · exact le_max_left 0 _
    · rw [Combat.calculate_dodge_chance, min_max_distrib_left]
      push_cast
      norm_num
  · intro h
    rw [Combat.calculate_damage]
    rcases hrq : rng.randomQ with ⟨r, g⟩
    rw [hrq] at h
    simp only at h
    simp [hrq, h]

def plainStats : AbilityStats :=
  { ability_cooldown := 2, global_cooldown := 0, attack := 0, damage := 0,
    damage_type := 1, armor_piercing_percent := 0, attack_from_unit := 1,
    attack_from_weapon := 1, critical_hit_percent := 0, critical_bonuses := [],
    min_range := 1, max_range := 5, line_of_fire := 2, attack_direction := 0,
    damage_area := [], target_area := none, targets := [], status_effects := [] }

def c4_defender : BattleUnit :=
  { baseUnit with
    battle_side := BattleSide.ENEMY_TEAM,
    template := { baseTemplate with stats := { baseStats with defense := 150 } } }

def c4_weapon : Weapon := ⟨1, [2], ⟨-1, 0, 5, 10, 0⟩⟩

def c4_ability : Ability := ⟨2, plainStats⟩

/-- Witness for C4 against a defender with defense 150 (dodge chance capped
at 95): the concrete roll succeeds and the hit is fully negated. -/
theorem C4_dodge_clamped_witness :
    (Rng.mk 0).randomQ.1 * 100 < min (95 : ℚ)
      (Combat.calculate_dodge_chance c4_defender.template.stats.defense
        (c4_ability.stats.attack + baseUnit.template.stats.accuracy)) ∧
    Combat.calculate_damage [] baseUnit c4_defender c4_weapon c4_ability 100 ⟨0⟩ =
      some ((0, false, true), (Rng.mk 0).randomQ.2) := by
  have h : (Rng.mk 0).randomQ.1 * 100 < min (95 : ℚ)
      (Combat.calculate_dodge_chance c4_defender.template.stats.defense
        (c4_ability.stats.attack + baseUnit.template.stats.accuracy)) := by
    norm_num [Rng.randomQ, rngNext, Combat.calculate_dodge_chance, c4_defender,
      c4_ability, plainStats, baseUnit, baseTemplate, baseStats]
  exact ⟨h, (C4_dodge_clamped [] baseUnit c4_defender c4_weapon c4_ability 100 ⟨0⟩).2 h⟩

/-! ## C7 — invalid actions fail without exceptions or state changes -/

/-- Indices that `pyGet` resolves are strictly below the list length. -/
theorem pyGet_some_lt {l : List α} {i : ℤ} {u : α} (h : pyGet l i = some u) :
    i < (l.length : ℤ) := by
  by_contra hge
  push_neg at hge
  have h0 : 0 ≤ i := le_trans (Int.ofNat_nonneg _) hge
  rw [pyGet, if_pos h0] at h
  have : l.length ≤ i.toNat := by omega
  rw [List.get?_eq_none.mpr this] at h
  exact Option.noConfusion h

/-- The on-hit status pass never changes the result's success flag. -/
theorem apply_on_hit_effects_success (s : BattleState) (res : ActionResult)
    (tidx target_idx : ℕ) (damage : ℤ) (l : List (ℕ × ℚ)) :
    (Battle.apply_on_hit_effects s res tidx target_idx damage l).1.success = res.success := by
  induction l generalizing s res with
  | nil => rfl
  | cons p rest ih =>
    rw [Battle.apply_on_hit_effects]
    dsimp only
    split
    · split
      · split
        · exact ih _ _
        · exact ih _ _
      · exact ih _ _
    · exact ih _ _

/-- The attack loop never changes the result's success flag. -/
theorem execute_attack_go_success (s : BattleState) (attacker : BattleUnit)
    (weapon : Weapon) (ability : Ability) (res : ActionResult)
    (ts : List (ℕ × ℚ)) :
    ∀ r s', Battle.execute_attack_go s attacker weapon ability res ts = some (r, s') →
      r.success = res.success := by
  induction ts generalizing s res with
  | nil =>
    intro r s' h
    rw [Battle.execute_attack_go] at h
    injection h with h1
    injection h1 with h2 h3
    rw [← h2]
  | cons p rest ih =>
    intro r s' h
    rw [Battle.execute_attack_go] at h
    split at h
    · exact ih _ _ _ _ h
    · split at h
      · exact ih _ _ _ _ h
      · split at h
        · exact Option.noConfusion h
        · dsimp only at h
          split at h
          · exact ih _ _ _ _ h
          · split at h
            · exact Option.noConfusion h
            · rw [ih _ _ _ _ h, apply_on_hit_effects_success]
              split
              all_goals first
                | rfl
                | (split <;> rfl)

/-- The invalid-action conditions of C7, phrased on the validation chain of
`execute_action`: unit index at or beyond the side's size, or a resolvable
unit that cannot act (dead or stunned), or an unknown weapon id, or a weapon
with an empty ability list, or a first ability id unknown to the content
store. -/
def C7invalid (s : BattleState) (a : BattleAction) : Prop :=
  ((Battle.current_side_units s).length : ℤ) ≤ a.unit_index ∨
  ∃ u, pyGet (Battle.current_side_units s) a.unit_index = some u ∧
    (Battle.can_act u = false ∨
      (Battle.can_act u = true ∧
        (dictGet u.template.weapons a.weapon_id = none ∨
          ∃ w, dictGet u.template.weapons a.weapon_id = some w ∧
            (w.abilities = [] ∨
              ∃ aid tl, w.abilities = aid :: tl ∧
                s.data_loader.get_ability aid = none))))

def c7_state : BattleState :=
  { data_loader := emptyLoader, layout := ⟨5, 3⟩, player_units := [baseUnit],
    enemy_units := [c9_enemy], player_is_attacker := true, turn_number := 0,
    is_player_turn := true, result := 0, action_history := [], rng := ⟨0⟩ }

/-- C7 counterexample: with one unit on the acting side, the out-of-range
unit index −2 makes `units[action.unit_index]` raise `IndexError` — an
exception, not a failure `ActionResult` — refuting "raises no exception" for
every out-of-range index. -/
theorem C7_negative_index_raises :
    Battle.execute_action c7_state ⟨-2, 1, ⟨0, 0⟩⟩ = none := by
  rw [Battle.execute_action]
  norm_num [Battle.current_side_units, c7_state, pyGet]

/-- C7 (amended: restricted to indices that Python list indexing does not
throw on — a unit index below minus the side's size raises `IndexError`;
in-range negative indices alias units from the end): each invalid-action
condition makes `execute_action` return a failure `ActionResult` with a
non-empty message and the battle state unchanged, and conversely every
unsuccessful return leaves the state untouched and carries a message. -/
theorem C7_invalid_action_fails (s : BattleState) (a : BattleAction) :
    (C7invalid s a →
      ∃ msg, msg ≠ "" ∧
        Battle.execute_action s a = some (ActionResult.failure msg, s)) ∧
    (∀ r s', Battle.execute_action s a = some (r, s') → r.success = false →
      s' = s ∧ r.message ≠ "") := by
  constructor
  · intro hinv
    rcases hinv with hlen | ⟨u, hu, hcase⟩
    · refine ⟨"Invalid unit index", by simp, ?_⟩
      rw [Battle.execute_action]
      simp only [if_pos hlen]
    · have hlt := pyGet_some_lt hu
      have hnot : ¬(((Battle.current_side_units s).length : ℤ) ≤ a.unit_index) :=
        not_le.mpr hlt
      rcases hcase with hca | ⟨hca, hwcase⟩
      · refine ⟨"Unit cannot act", by simp, ?_⟩
        rw [Battle.execute_action]
        simp only [if_neg hnot, hu, hca]
        simp
      · rcases hwcase with hw | ⟨w, hw, habcase⟩
        · refine ⟨"Invalid weapon", by simp, ?_⟩
          rw [Battle.execute_action]
          simp only [if_neg hnot, hu, hca, hw]
          simp
        · rcases habcase with hab | ⟨aid, tl, hab, hga⟩
          · refine ⟨"No ability for weapon", by simp, ?_⟩
            rw [Battle.execute_action]
            simp only [if_neg hnot, hu, hca, hw, hab]
            simp
          · refine ⟨"Ability not found", by simp, ?_⟩
            rw [Battle.execute_action]
            simp only [if_neg hnot, hu, hca, hw, hab, hga]
            simp
  · intro r s' h hsucc
    rw [Battle.execute_action] at h
    split at h
    · simp only [Option.some.injEq, Prod.mk.injEq] at h
      refine ⟨h.2.symm, ?_⟩
      rw [← h.1]
      simp [ActionResult.failure]
    · split at h
      · exact Option.noConfusion h
      · split at h
        · simp only [Option.some.injEq, Prod.mk.injEq] at h
          refine ⟨h.2.symm, ?_⟩
          rw [← h.1]
          simp [ActionResult.failure]
        · split at h
          · simp only [Option.some.injEq, Prod.mk.injEq] at h
            refine ⟨h.2.symm, ?_⟩
            rw [← h.1]
            simp [ActionResult.failure]
          · split at h
            · simp only [Option.some.injEq, Prod.mk.injEq] at h
              refine ⟨h.2.symm, ?_⟩
              rw [← h.1]
              simp [ActionResult.failure]
            · split at h
              · simp only [Option.some.injEq, Prod.mk.injEq] at h
                refine ⟨h.2.symm, ?_⟩
                rw [← h.1]
                simp [ActionResult.failure]
              · dsimp only at h
                split at h
                · exact Option.noConfusion h
                · rename_i rs heq
                  rw [Battle.execute_attack] at heq
                  have hsu : rs.1.success = true :=
                    execute_attack_go_success _ _ _ _ _ _ rs.1 rs.2 heq
                  simp only [Option.some.injEq, Prod.mk.injEq] at h
                  rw [← h.1] at hsucc
                  rw [hsu] at hsucc
                  exact Bool.noConfusion hsucc

/-- Witness for C7 (amended) at the out-of-range index 5 on a side with one
unit: a failure result with a message and the unchanged state. -/
theorem C7_invalid_action_fails_witness :
    C7invalid c7_state ⟨5, 1, ⟨0, 0⟩⟩ ∧
    (∃ msg, msg ≠ "" ∧
      Battle.execute_action c7_state ⟨5, 1, ⟨0, 0⟩⟩ =
        some (ActionResult.failure msg, c7_state)) :=
  ⟨Or.inl (by norm_num [Battle.current_side_units, c7_state]),
    (C7_invalid_action_fails c7_state ⟨5, 1, ⟨0, 0⟩⟩).1
      (Or.inl (by norm_num [Battle.current_side_units, c7_state]))⟩

/-! ## C1 — armor/HP split of `apply_damage` -/

/-- HP after the shared death-check tail: the loss clamped at zero. -/
theorem applyHpLoss_current_hp (u : BattleUnit) (x : ℤ) :
    (Combat.applyHpLoss u x).current_hp = max (u.current_hp - x) 0 := by
  unfold Combat.applyHpLoss
  dsimp only
  split <;> rename_i h <;> simp <;> omega

/-- The death-check tail leaves armor untouched. -/
theorem applyHpLoss_current_armor (u : BattleUnit) (x : ℤ) :
    (Combat.applyHpLoss u x).current_armor = u.current_armor := by
  unfold Combat.applyHpLoss
  dsimp only
  split <;> rfl

/-- A unit still alive after the death-check tail has positive HP. -/
theorem applyHpLoss_alive (u : BattleUnit) (x : ℤ) :
    (Combat.applyHpLoss u x).is_alive = true → 0 < (Combat.applyHpLoss u x).current_hp := by
  unfold Combat.applyHpLoss
  dsimp only
  split <;> rename_i h <;> intro ha
  · exact Bool.noConfusion ha
  · simp
    omega

/-- The HP damage modifier `apply_damage` looks up for a damage type. -/
def c1_hp_mod (u : BattleUnit) (dt : ℕ) : ℚ :=
  dictGetD u.template.stats.damage_mods (Combat.applyDamageTypeName dt) 1

/-- The combined armor modifier of `apply_damage`: the template's armor
damage modifier times the status armor modifier when one is supplied. -/
def c1_armor_mod (u : BattleUnit) (dt : ℕ) (sa : Option (List (ℕ × ℚ))) : ℚ :=
  match sa with
  | some m => dictGetD u.template.stats.armor_damage_mods (Combat.applyDamageTypeName dt) 1 *
      dictGetD m dt 1
  | none => dictGetD u.template.stats.armor_damage_mods (Combat.applyDamageTypeName dt) 1

/-- The armor-piercing portion of a hit. -/
def c1_piercing (d : ℤ) (ap : ℚ) : ℤ := pyInt ((d : ℚ) * ap)

/-- The effective armor capacity for a positive armor modifier. -/
def c1_capacity (u : BattleUnit) (dt : ℕ) (sa : Option (List (ℕ × ℚ))) : ℤ :=
  pyInt ((u.current_armor : ℚ) / c1_armor_mod u dt sa)

def c1_unit : BattleUnit :=
  { baseUnit with
    current_hp := 1000,
    current_armor := 100,
    template := { baseTemplate with stats := { baseStats with
      hp := 1000, armor_hp := 100,
      damage_mods := [(dt_piercing, 1)],
      armor_damage_mods := [(dt_piercing, 3 / 5)] } } }

/-- C1: at runtime `apply_damage` raises `AttributeError` for every living
defender (its damage-type-name dict literal names nonexistent `DamageType`
members) — shown at a concrete armored defender — while the armor split the
body denotes satisfies the claim exactly: with `piercing = ⌊damage · ap⌋`
and `remainder = damage − piercing`, the effective capacity is
`⌊armor / armor_mod⌋`; if the remainder fits, armor loses exactly
`⌊remainder · armor_mod⌋` and HP only `⌊piercing · hp_mod⌋`; otherwise all
remaining armor is consumed (armor becomes exactly 0) and HP loses
`⌊(piercing + (remainder − capacity)) · hp_mod⌋` (HP clamped at zero on
death); the returned total is the sum of the two losses. -/
theorem C1_apply_damage_armor_split :
    (Combat.applyDamagePy c1_unit 150 1 0 none none none false = none) ∧
    (∀ (u : BattleUnit) (d : ℤ) (dt : ℕ) (ap : ℚ) (sa : Option (List (ℕ × ℚ))),
      u.is_alive = true → 0 < u.current_armor → 0 ≤ d → 0 ≤ ap → ap ≤ 1 →
      0 < c1_armor_mod u dt sa →
      ((d - c1_piercing d ap ≤ c1_capacity u dt sa →
        (Combat.applyDamageBody u d dt ap none none sa false).1.current_armor =
          u.current_armor - pyInt (((d - c1_piercing d ap : ℤ) : ℚ) * c1_armor_mod u dt sa) ∧
        (Combat.applyDamageBody u d dt ap none none sa false).1.current_hp =
          max (u.current_hp - pyInt ((c1_piercing d ap : ℚ) * c1_hp_mod u dt)) 0 ∧
        (Combat.applyDamageBody u d dt ap none none sa false).2 =
          pyInt (((d - c1_piercing d ap : ℤ) : ℚ) * c1_armor_mod u dt sa) +
            pyInt ((c1_piercing d ap : ℚ) * c1_hp_mod u dt)) ∧
      (c1_capacity u dt sa < d - c1_piercing d ap →
        (Combat.applyDamageBody u d dt ap none none sa false).1.current_armor = 0 ∧
        (Combat.applyDamageBody u d dt ap none none sa false).1.current_hp =
          max (u.current_hp - pyInt (((c1_piercing d ap +
            (d - c1_piercing d ap - c1_capacity u dt sa) : ℤ) : ℚ) * c1_hp_mod u dt)) 0 ∧
        (Combat.applyDamageBody u d dt ap none none sa false).2 =
          u.current_armor + pyInt (((c1_piercing d ap +
            (d - c1_piercing d ap - c1_capacity u dt sa) : ℤ) : ℚ) * c1_hp_mod u dt)))) := by
  constructor
  · rw [Combat.applyDamagePy]
    norm_num [c1_unit, baseUnit]
  · intro u d dt ap sa halive harmor hd hap0 hap1 hmod
    rw [Combat.applyDamageBody]
    rw [if_neg (by rw [halive]; exact fun hcon => Bool.noConfusion hcon)]
    have hm1 : pyInt ((d : ℚ) * (1 * 1)) = d := by
      rw [mul_one, mul_one, pyInt_intCast]
    have hnb : ¬(False ∧ u.current_armor > 0) := by simp
    have hna : ¬(u.current_armor ≤ 0) := not_le.mpr harmor
    cases sa with
    | none =>
      simp only [Bool.false_eq_true, false_and, if_false, if_neg hna, hm1]
      simp only [c1_piercing, c1_capacity, c1_armor_mod, c1_hp_mod] at hmod ⊢
      have hmodgt : dictGetD u.template.stats.armor_damage_mods
          (Combat.applyDamageTypeName dt) 1 > 0 := hmod
      rw [if_pos hmodgt]
      constructor
      · intro hfits
        rw [if_pos hfits]
        dsimp only
        refine ⟨?_, ?_, rfl⟩
        · rw [applyHpLoss_current_armor]
        · rw [applyHpLoss_current_hp]
      · intro hover
        rw [if_neg (not_le.mpr hover)]
        dsimp only
        refine ⟨?_, ?_, rfl⟩
        · rw [applyHpLoss_current_armor]
        · rw [applyHpLoss_current_hp]
    | some m =>
      simp only [Bool.false_eq_true, false_and, if_false, if_neg hna, hm1]
      simp only [c1_piercing, c1_capacity, c1_armor_mod, c1_hp_mod] at hmod ⊢
      have hmodgt : dictGetD u.template.stats.armor_damage_mods
          (Combat.applyDamageTypeName dt) 1 * dictGetD m dt 1 > 0 := hmod
      rw [if_pos hmodgt]
      constructor
      · intro hfits
        rw [if_pos hfits]
        dsimp only
        refine ⟨?_, ?_, rfl⟩
        · rw [applyHpLoss_current_armor]
        · rw [applyHpLoss_current_hp]
      · intro hover
        rw [if_neg (not_le.mpr hover)]
        dsimp only
        refine ⟨?_, ?_, rfl⟩
        · rw [applyHpLoss_current_armor]
        · rw [applyHpLoss_current_hp]

/-- Witness for C1's body-semantics part at a defender with 100 armor, armor
modifier 3/5 (capacity 166) hit for 150 piercing with no armor piercing: the
fits-branch equations instantiated. -/
theorem C1_apply_damage_armor_split_witness :
    (c1_unit.is_alive = true ∧ 0 < c1_unit.current_armor ∧ (0 : ℤ) ≤ 150 ∧
      (0 : ℚ) ≤ 0 ∧ (0 : ℚ) ≤ 1 ∧ 0 < c1_armor_mod c1_unit 1 none ∧
      (150 : ℤ) - c1_piercing 150 0 ≤ c1_capacity c1_unit 1 none) ∧
    ((Combat.applyDamageBody c1_unit 150 1 0 none none none false).1.current_armor =
      c1_unit.current_armor -
        pyInt (((150 - c1_piercing 150 0 : ℤ) : ℚ) * c1_armor_mod c1_unit 1 none) ∧
     (Combat.applyDamageBody c1_unit 150 1 0 none none none false).1.current_hp =
      max (c1_unit.current_hp - pyInt ((c1_piercing 150 0 : ℚ) * c1_hp_mod c1_unit 1)) 0 ∧
     (Combat.applyDamageBody c1_unit 150 1 0 none none none false).2 =
      pyInt (((150 - c1_piercing 150 0 : ℤ) : ℚ) * c1_armor_mod c1_unit 1 none) +
        pyInt ((c1_piercing 150 0 : ℚ) * c1_hp_mod c1_unit 1)) := by
  have h1 : c1_unit.is_alive = true := rfl
  have h2 : 0 < c1_unit.current_armor := by norm_num [c1_unit, baseUnit]
  have h6 : 0 < c1_armor_mod c1_unit 1 none := by
    norm_num [c1_armor_mod, c1_unit, baseUnit, baseTemplate, baseStats, dictGetD, dictGet,
      Combat.applyDamageTypeName, dt_piercing, List.find?]
  have h7 : (150 : ℤ) - c1_piercing 150 0 ≤ c1_capacity c1_unit 1 none := by
    norm_num [c1_piercing, c1_capacity, c1_armor_mod, c1_unit, baseUnit, baseTemplate,
      baseStats, dictGetD, dictGet, Combat.applyDamageTypeName, dt_piercing, List.find?,
      pyInt]
  exact ⟨⟨h1, h2, by norm_num, by norm_num, by norm_num, h6, h7⟩,
    (C1_apply_damage_armor_split.2 c1_unit 150 1 0 none h1 h2 (by norm_num) (by norm_num)
      (by norm_num) h6).1 h7⟩

/-! ## C8 — damage never drives HP or armor negative, death is flagged,
dead units are excluded -/

/-- The `take_damage` death check never leaves negative HP. -/
theorem deathCheck_hp_nonneg (u : BattleUnit) :
    0 ≤ (Battle.deathCheck u).current_hp := by
  unfold Battle.deathCheck
  split <;> rename_i hc
  · simp
  · omega

/-- The `take_damage` death check leaves armor untouched. -/
theorem deathCheck_armor (u : BattleUnit) :
    (Battle.deathCheck u).current_armor = u.current_armor := by
  unfold Battle.deathCheck
  split <;> rfl

/-- A unit still alive after the death check has positive HP. -/
theorem deathCheck_alive_pos (u : BattleUnit) :
    (Battle.deathCheck u).is_alive = true → 0 < (Battle.deathCheck u).current_hp := by
  unfold Battle.deathCheck
  split <;> rename_i hc <;> intro ha
  · exact Bool.noConfusion ha
  · omega

/-- The armor-piercing portion of a non-negative damage value with a piercing
fraction in `[0, 1]` is between 0 and the damage. -/
theorem c8_piercing_bounds {d : ℤ} {ap : ℚ} (hd : 0 ≤ d) (h0 : 0 ≤ ap) (h1 : ap ≤ 1) :
    0 ≤ pyInt ((d : ℚ) * ap) ∧ pyInt ((d : ℚ) * ap) ≤ d := by
  have hnn : 0 ≤ (d : ℚ) * ap := mul_nonneg (by exact_mod_cast hd) h0
  constructor
  · exact pyInt_nonneg hnn
  · rw [pyInt_of_nonneg hnn]
    have hle : (d : ℚ) * ap ≤ (d : ℚ) := by
      have := mul_le_mul_of_nonneg_left h1 (show (0 : ℚ) ≤ (d : ℚ) by exact_mod_cast hd)
      simpa using this
    calc ⌊(d : ℚ) * ap⌋ ≤ ⌊((d : ℤ) : ℚ)⌋ := Int.floor_le_floor hle
      _ = d := Int.floor_intCast d

/-- Armor absorption never exceeds the remaining armor: an armorable amount
within the effective capacity, scaled back by the armor modifier and
truncated, stays at most the current armor. -/
theorem c8_armor_bound {A x : ℤ} {M : ℚ} (hA : 0 ≤ A) (hx : 0 ≤ x) (hM : 0 ≤ M)
    (hfits : x ≤ (if M > 0 then pyInt ((A : ℚ) / M) else A)) :
    pyInt ((x : ℚ) * M) ≤ A := by
  rcases eq_or_lt_of_le hM with hM0 | hMpos
  · rw [← hM0, mul_zero]
    have : pyInt 0 = 0 := by simp [pyInt]
    rw [this]
    exact hA
  · rw [if_pos hMpos] at hfits
    have hdiv : (0 : ℚ) ≤ (A : ℚ) / M := div_nonneg (by exact_mod_cast hA) (le_of_lt hMpos)
    rw [pyInt_of_nonneg hdiv] at hfits
    have h1 : (x : ℚ) ≤ (A : ℚ) / M := by
      calc (x : ℚ) ≤ (⌊(A : ℚ) / M⌋ : ℚ) := by exact_mod_cast hfits
        _ ≤ (A : ℚ) / M := Int.floor_le _
    have h2 : (x : ℚ) * M ≤ (A : ℚ) := (le_div_iff hMpos).mp h1
    have hnn : 0 ≤ (x : ℚ) * M := mul_nonneg (by exact_mod_cast hx) hM
    rw [pyInt_of_nonneg hnn]
    calc ⌊(x : ℚ) * M⌋ ≤ ⌊((A : ℤ) : ℚ)⌋ := Int.floor_le_floor h2
      _ = A := Int.floor_intCast A

/-- C8: after every damage application — a direct hit through
`BattleUnit.take_damage` or a tick through the armor/HP split of
`apply_damage` — HP and armor remain ≥ 0 and a unit whose HP reached 0 has
its liveness flag dropped at that moment (any unit still flagged alive has
positive HP); a dead unit takes zero damage and is left untouched by both
damage paths; and `get_valid_targets` only ever returns positions of living
opposing units, so dead units are excluded from target enumeration. -/
theorem C8_damage_invariants :
    (∀ (u : BattleUnit) (d : ℤ) (dt : ℕ) (ap : ℚ),
      0 ≤ u.current_hp → 0 ≤ u.current_armor →
      0 ≤ (Battle.take_damage u d dt ap).1.current_hp ∧
      0 ≤ (Battle.take_damage u d dt ap).1.current_armor ∧
      ((Battle.take_damage u d dt ap).1.is_alive = true →
        0 < (Battle.take_damage u d dt ap).1.current_hp)) ∧
    (∀ (u : BattleUnit) (d : ℤ) (dt : ℕ) (ap : ℚ),
      u.is_alive = false → Battle.take_damage u d dt ap = (u, 0)) ∧
    (∀ (u : BattleUnit) (d : ℤ) (dt : ℕ) (ap : ℚ) (sa : Option (List (ℕ × ℚ))) (b : Bool),
      0 ≤ u.current_hp → 0 ≤ u.current_armor → 0 ≤ d → 0 ≤ ap → ap ≤ 1 →
      0 ≤ c1_armor_mod u dt sa →
      0 ≤ (Combat.applyDamageBody u d dt ap none none sa b).1.current_hp ∧
      0 ≤ (Combat.applyDamageBody u d dt ap none none sa b).1.current_armor ∧
      ((Combat.applyDamageBody u d dt ap none none sa b).1.is_alive = true →
        0 < (Combat.applyDamageBody u d dt ap none none sa b).1.current_hp)) ∧
    (∀ (u : BattleUnit) (d : ℤ) (dt : ℕ) (ap : ℚ)
        (env st sa : Option (List (ℕ × ℚ))) (b : Bool),
      u.is_alive = false → Combat.applyDamageBody u d dt ap env st sa b = (u, 0)) ∧
    (∀ (s : BattleState) (attacker : BattleUnit) (wid : ℕ) (pos : Position),
      pos ∈ Battle.get_valid_targets s attacker wid →
      ∃ t ∈ Battle.opposing_side_units s, t.is_alive = true ∧ t.position = pos) := by
  refine ⟨?_, ?_, ?_, ?_, ?_⟩
  · intro u d dt ap h1 h2
    rw [Battle.take_damage]
    split
    · rename_i hc
      refine ⟨h1, h2, ?_⟩
      intro ha
      rw [hc] at ha
      exact Bool.noConfusion ha
    · dsimp only
      split
      · split
        · refine ⟨deathCheck_hp_nonneg _, ?_, deathCheck_alive_pos _⟩
          rw [deathCheck_armor]
        · rename_i hno
          refine ⟨deathCheck_hp_nonneg _, ?_, deathCheck_alive_pos _⟩
          rw [deathCheck_armor]
          dsimp only
          omega
      · refine ⟨deathCheck_hp_nonneg _, ?_, deathCheck_alive_pos _⟩
        rw [deathCheck_armor]
        exact h2
  · intro u d dt ap h
    rw [Battle.take_damage, if_pos h]
  · intro u d dt ap sa b h1 h2 hd hap0 hap1 hM
    rcases hal : u.is_alive with _ | _
    · rw [Combat.applyDamageBody, if_pos hal]
      refine ⟨h1, h2, ?_⟩
      intro ha
      rw [hal] at ha
      exact Bool.noConfusion ha
    · rw [Combat.applyDamageBody, if_neg (by rw [hal]; exact fun hcon => Bool.noConfusion hcon)]
      have hmd0 : 0 ≤ pyInt ((d : ℚ) * (1 * 1)) :=
        pyInt_nonneg (by rw [mul_one, mul_one]; exact_mod_cast hd)
      have hpb := c8_piercing_bounds hmd0 hap0 hap1
      split
      · dsimp only
        exact ⟨by rw [applyHpLoss_current_hp]; exact le_max_right _ _,
          by rw [applyHpLoss_current_armor]; exact h2, applyHpLoss_alive _ _⟩
      · split
        · dsimp only
          exact ⟨by rw [applyHpLoss_current_hp]; exact le_max_right _ _,
            by rw [applyHpLoss_current_armor]; exact h2, applyHpLoss_alive _ _⟩
        · rename_i hbp hna
          have hx : (0 : ℤ) ≤ pyInt ((d : ℚ) * (1 * 1)) -
              pyInt (((pyInt ((d : ℚ) * (1 * 1)) : ℤ) : ℚ) * ap) := by omega
          have hpyz : pyInt (0 : ℚ) = 0 := by simp [pyInt]
          cases sa with
          | none =>
            simp only [c1_armor_mod] at hM
            dsimp only
            split
            · rename_i hMpos
              split
              · rename_i hfits
                have hfits2 : pyInt ((d : ℚ) * (1 * 1)) -
                    pyInt (((pyInt ((d : ℚ) * (1 * 1)) : ℤ) : ℚ) * ap) ≤
                    (if dictGetD u.template.stats.armor_damage_mods
                        (Combat.applyDamageTypeName dt) 1 > 0 then
                      pyInt ((u.current_armor : ℚ) /
                        dictGetD u.template.stats.armor_damage_mods
                          (Combat.applyDamageTypeName dt) 1)
                    else u.current_armor) := by
                  rw [if_pos hMpos]
                  exact hfits
                have hbound := c8_armor_bound h2 hx hM hfits2
                refine ⟨by rw [applyHpLoss_current_hp]; exact le_max_right _ _, ?_,
                  applyHpLoss_alive _ _⟩
                rw [applyHpLoss_current_armor]
                dsimp only
                omega
              · refine ⟨by rw [applyHpLoss_current_hp]; exact le_max_right _ _, ?_,
                  applyHpLoss_alive _ _⟩
                rw [applyHpLoss_current_armor]
            · rename_i hMneg
              have hM0 : dictGetD u.template.stats.armor_damage_mods
                  (Combat.applyDamageTypeName dt) 1 = 0 := le_antisymm (not_lt.mp hMneg) hM
              split
              · refine ⟨by rw [applyHpLoss_current_hp]; exact le_max_right _ _, ?_,
                  applyHpLoss_alive _ _⟩
                rw [applyHpLoss_current_armor]
                dsimp only
                rw [hM0, mul_zero, hpyz]
                omega
              · refine ⟨by rw [applyHpLoss_current_hp]; exact le_max_right _ _, ?_,
                  applyHpLoss_alive _ _⟩
                rw [applyHpLoss_current_armor]
          | some m =>
            simp only [c1_armor_mod] at hM
            dsimp only
            split
            · rename_i hMpos
              split
              · rename_i hfits
                have hfits2 : pyInt ((d : ℚ) * (1 * 1)) -
                    pyInt (((pyInt ((d : ℚ) * (1 * 1)) : ℤ) : ℚ) * ap) ≤
                    (if dictGetD u.template.stats.armor_damage_mods
                        (Combat.applyDamageTypeName dt) 1 * dictGetD m dt 1 > 0 then
                      pyInt ((u.current_armor : ℚ) /
                        (dictGetD u.template.stats.armor_damage_mods
                          (Combat.applyDamageTypeName dt) 1 * dictGetD m dt 1))
                    else u.current_armor) := by
                  rw [if_pos hMpos]
                  exact hfits
                have hbound := c8_armor_bound h2 hx hM hfits2
                refine ⟨by rw [applyHpLoss_current_hp]; exact le_max_right _ _, ?_,
                  applyHpLoss_alive _ _⟩
                rw [applyHpLoss_current_armor]
                dsimp only
                omega
              · refine ⟨by rw [applyHpLoss_current_hp]; exact le_max_right _ _, ?_,
                  applyHpLoss_alive _ _⟩
                rw [applyHpLoss_current_armor]
            · rename_i hMneg
              have hM0 : dictGetD u.template.stats.armor_damage_mods
                  (Combat.applyDamageTypeName dt) 1 * dictGetD m dt 1 = 0 :=
                le_antisymm (not_lt.mp hMneg) hM
              split
              · refine ⟨by rw [applyHpLoss_current_hp]; exact le_max_right _ _, ?_,
                  applyHpLoss_alive _ _⟩
                rw [applyHpLoss_current_armor]
                dsimp only
                rw [hM0, mul_zero, hpyz]
                omega
              · refine ⟨by rw [applyHpLoss_current_hp]; exact le_max_right _ _, ?_,
                  applyHpLoss_alive _ _⟩
                rw [applyHpLoss_current_armor]
  · intro u d dt ap env st sa b h
    rw [Combat.applyDamageBody.eq_def, if_pos h]
  · intro s attacker wid pos hpos
    rw [Battle.get_valid_targets] at hpos
    rcases hw : dictGet attacker.template.weapons wid with _ | w
    · simp only [hw] at hpos
      exact absurd hpos (List.not_mem_nil pos)
    · simp only [hw] at hpos
      rcases hab : w.abilities with _ | ⟨aid, tl⟩
      · simp only [hab] at hpos
        exact absurd hpos (List.not_mem_nil pos)
      · simp only [hab] at hpos
        rcases hga : s.data_loader.get_ability aid with _ | ability
        · simp only [hga] at hpos
          exact absurd hpos (List.not_mem_nil pos)
        · simp only [hga] at hpos
          obtain ⟨t, ht, htp⟩ := List.mem_map.mp hpos
          obtain ⟨htm, htpred⟩ := List.mem_filter.mp ht
          simp only [Bool.and_eq_true] at htpred
          exact ⟨t, htm, htpred.1, htp⟩

/-- Witness for C8 at a living unarmored unit hit for 50 and at the armored
`c1_unit` hit for 150: HP and armor stay non-negative and liveness implies
positive HP. -/
theorem C8_damage_invariants_witness :
    (0 ≤ baseUnit.current_hp ∧ 0 ≤ baseUnit.current_armor) ∧
    (0 ≤ (Battle.take_damage baseUnit 50 1 0).1.current_hp ∧
      0 ≤ (Battle.take_damage baseUnit 50 1 0).1.current_armor ∧
      ((Battle.take_damage baseUnit 50 1 0).1.is_alive = true →
        0 < (Battle.take_damage baseUnit 50 1 0).1.current_hp)) ∧
    (0 ≤ (Combat.applyDamageBody c1_unit 150 1 0 none none none false).1.current_hp ∧
      0 ≤ (Combat.applyDamageBody c1_unit 150 1 0 none none none false).1.current_armor ∧
      ((Combat.applyDamageBody c1_unit 150 1 0 none none none false).1.is_alive = true →
        0 < (Combat.applyDamageBody c1_unit 150 1 0 none none none false).1.current_hp)) := by
  have h1 : 0 ≤ baseUnit.current_hp := by norm_num [baseUnit]
  have h2 : 0 ≤ baseUnit.current_armor := by norm_num [baseUnit]
  have h3 : 0 ≤ c1_unit.current_hp := by norm_num [c1_unit, baseUnit]
  have h4 : 0 ≤ c1_unit.current_armor := by norm_num [c1_unit, baseUnit]
  have h5 : 0 ≤ c1_armor_mod c1_unit 1 none := by
    norm_num [c1_armor_mod, c1_unit, baseUnit, baseTemplate, baseStats, dictGetD, dictGet,
      Combat.applyDamageTypeName, dt_piercing, List.find?]
  exact ⟨⟨h1, h2⟩, C8_damage_invariants.1 baseUnit 50 1 0 h1 h2,
    C8_damage_invariants.2.2.1 c1_unit 150 1 0 none false h3 h4 (by norm_num) (by norm_num)
      (by norm_num) h5⟩

end BNSim
